import Mathlib

/-!
# kong-portal-controller: validation gate, path mapping, cache and reconciliation

A shallow embedding of the synchronization core of the controller:

* `pkg/apis/v1/kongfile_types.go`            : `Kind`, `KongFileSpec`, `KongFile`
* `internal/admission/validator.go`          : `ValidateKongFile`
* `internal/dataplane/proxy/cached_proxy_resolver.go` : `Build`, `UpdateObject`, ...
* `internal/store/store.go`                  : `keyFunc`, `CacheStores`
* `internal/kong/file_service.go`            : `FileService`
* `internal/controllers/developer/kongfile_controller.go` : `Reconcile`
* `internal/admission/server.go`             : `toTLSConfig`, `handleValidation`, `ServeHTTP`
* `internal/annotations/annotations.go`      : `validController`
* `internal/controllers/utils/utils.go`      : class check and event predicates

Go strings are Lean strings, Go pointers are `Option`, Go `error` is
`Option Error`, and stateful code passes its state explicitly.
-/

namespace KongPortal

/-! ## Data model (`pkg/apis/v1/kongfile_types.go`) -/

/-- Go `type Kind string`: any string is a value of the type. -/
abbrev Kind := String

/-- Go `CONTENT Kind = "CONTENT"`. -/
def CONTENT : Kind := "CONTENT"

/-- Go `SPECIFICATION = "SPECIFICATION"`. -/
def SPECIFICATION : Kind := "SPECIFICATION"

/-- Go `ASSET = "ASSET"`. -/
def ASSET : Kind := "ASSET"

/-- Go `KongFileSpec`: the desired state of a KongFile. -/
structure KongFileSpec where
  Layout : String := ""
  Path : String := ""
  Title : String := ""
  Name : String := ""
  Content : String := ""
  Kind : Kind := ""
deriving DecidableEq, Repr, Inhabited

/-- Go `KongFileStatus`. -/
structure KongFileStatus where
  Validated : Bool := false
deriving DecidableEq, Repr, Inhabited

/-- Instants of `metav1.Time`, counted from the Go zero time (`IsZero` is `= 0`). -/
abbrev Time := Int

/-- Go `KongFile`. The embedded `metav1.ObjectMeta` contributes the fields the
controller reads: `Name`, `Namespace`, `Annotations` (a `map[string]string`)
and `DeletionTimestamp` (a `*metav1.Time`). -/
structure KongFile where
  Name : String := ""
  Namespace : String := ""
  Annotations : List (String × String) := []
  DeletionTimestamp : Option Time := none
  Spec : KongFileSpec := {}
  Status : KongFileStatus := {}
deriving DecidableEq, Repr, Inhabited

/-! ## Backend file record (`internal/kong/types.go`) -/

/-- Go `kong.File`: every field is a pointer, hence optional. -/
structure File where
  Checksum : Option String := none
  ID : Option String := none
  CreatedAt : Option Int := none
  Path : Option String := none
  Contents : Option String := none
deriving DecidableEq, Repr, Inhabited

/-! ## Validator (`internal/admission/validator.go`) -/

/-- The five denial reasons `ErrKongFileNameEmpty`, ... used by `ValidateKongFile`.
Their declaration is not part of the sources at hand, so they are taken as a parameter. -/
structure Reasons where
  ErrKongFileNameEmpty : String
  ErrKongFileSpecNameEmpty : String
  ErrKongFileSpecPathEmpty : String
  ErrKongFileSpecTitleEmpty : String
  ErrKongFileSpecLayoutEmpty : String
deriving DecidableEq, Repr

/-- Errors of the core, kept structured instead of formatted. -/
inductive Error where
  /-- An error built by `fmt.Errorf` from a fixed text. -/
  | text (msg : String)
  /-- The text "cannot add unsupported kind %q to the store". -/
  | unsupportedAdd (gvk : String)
  /-- The text "cannot delete unsupported kind %q from the store". -/
  | unsupportedDelete (gvk : String)
  /-- The text "%T is not a supported cache object type". -/
  | unsupportedCacheType (gvk : String)
  /-- An error reported by the Admin API client (transport failure, non-2xx answer, ...). -/
  | backend (msg : String)
  /-- An error reported by the external object store. -/
  | apiserver (msg : String)
  /-- A Go runtime panic (nil dereference): the call does not return normally. -/
  | panic (msg : String)
  /-- The text "unknown resource type to validate: %s/%s %s". -/
  | unknownResource (group version resource : String)
  /-- The text "read cert from file %q: %w". -/
  | readCert (path : String) (cause : Error)
  /-- The text "read key from file %q: %w". -/
  | readKey (path : String) (cause : Error)
  /-- The text "X509KeyPair error: %w". -/
  | x509 (cause : Error)
deriving DecidableEq, Repr

/-- Go `KongHTTPValidator.ValidateKongFile`: `(allowed, reason, err)`. -/
def ValidateKongFile (R : Reasons) (kongFile : KongFile) : Bool × String × Option Error :=
  if kongFile.Name = "" then (false, R.ErrKongFileNameEmpty, none)
  else if kongFile.Spec.Name = "" then (false, R.ErrKongFileSpecNameEmpty, none)
  else if kongFile.Spec.Path = "" then (false, R.ErrKongFileSpecPathEmpty, none)
  else if kongFile.Spec.Kind = CONTENT then
    if kongFile.Spec.Title = "" then (false, R.ErrKongFileSpecTitleEmpty, none)
    else if kongFile.Spec.Layout = "" then (false, R.ErrKongFileSpecLayoutEmpty, none)
    else (true, "", none)
  else (true, "", none)

/-! ## Path and content mapping (`cached_proxy_resolver.go`, `Build`) -/

/-- Go `Build`: both local strings start empty and are set by the first matching branch. -/
def Build (kongFile : KongFile) : File :=
  let (expectedPath, expectedContent) :=
    if kongFile.Spec.Kind = CONTENT then
      ("content/" ++ kongFile.Spec.Path ++ "/" ++ kongFile.Spec.Name,
       "---\n" ++
        "title: " ++ kongFile.Spec.Title ++ "\n" ++
        "layout: " ++ kongFile.Spec.Layout ++ "\n" ++
        "---\n" ++
        kongFile.Spec.Content)
    else if kongFile.Spec.Kind = ASSET then
      ("base/assets/" ++ kongFile.Spec.Path ++ "/" ++ kongFile.Spec.Name, kongFile.Spec.Content)
    else if kongFile.Spec.Kind = SPECIFICATION then
      ("specs/" ++ kongFile.Spec.Path ++ "/" ++ kongFile.Spec.Name, kongFile.Spec.Content)
    else ("", "")
  { Path := some expectedPath, Contents := some expectedContent }

/-! ## Objects handed to the cache and the proxy -/

/-- Go `client.Object` as the core sees it: a `*developer.KongFile`, or an object of any
other kind, of which only the type or group-version-kind `gvk` is ever read (for an error
text). -/
inductive Object where
  | kongFile (obj : KongFile)
  | other (gvk : String)
deriving DecidableEq, Repr

/-! ## Local cache store (`internal/store/store.go`) -/

/-- Go `keyFunc`: `namespace + "/" + name`; its error result is always nil. -/
def keyFunc (obj : KongFile) : String :=
  obj.Namespace ++ "/" ++ obj.Name

/-- The `cache.Store` built by `cache.NewStore(keyFunc)`: a Go map from key to item. -/
structure Store where
  items : String → Option KongFile

/-- The store after `cache.NewStore(keyFunc)`: no item. -/
def Store.empty : Store :=
  { items := fun _ => none }

/-- Go `cache.Store.Get`: `(item, exists, err)` for the key of `obj`. -/
def Store.Get (s : Store) (obj : KongFile) : Option KongFile × Bool × Option Error :=
  (s.items (keyFunc obj), (s.items (keyFunc obj)).isSome, none)

/-- Go `cache.Store.Add`: sets the entry under the key of `obj`. -/
def Store.Add (s : Store) (obj : KongFile) : Option Error × Store :=
  (none, { items := fun k => if k = keyFunc obj then some obj else s.items k })

/-- Go `cache.Store.Update`: sets the entry under the key of `obj`. -/
def Store.Update (s : Store) (obj : KongFile) : Option Error × Store :=
  (none, { items := fun k => if k = keyFunc obj then some obj else s.items k })

/-- Go `cache.Store.Delete`: removes the entry under the key of `obj`. -/
def Store.Delete (s : Store) (obj : KongFile) : Option Error × Store :=
  (none, { items := fun k => if k = keyFunc obj then none else s.items k })

/-- The store after a write through a pointer it holds under `key`: the entry shows the
written object. -/
def Store.assign (s : Store) (key : String) (obj : KongFile) : Store :=
  { items := fun k => if k = key then some obj else s.items k }

/-- Go `CacheStores`; the lock only serialises the operations, which are modelled one at a time. -/
structure CacheStores where
  KongFiles : Store

/-- Go `NewCacheStores`. -/
def NewCacheStores : CacheStores :=
  { KongFiles := Store.empty }

/-- Go `CacheStores.Get`. -/
def CacheStores.Get (c : CacheStores) (obj : Object) : Option KongFile × Bool × Option Error :=
  match obj with
  | .kongFile obj => c.KongFiles.Get obj
  | .other gvk => (none, false, some (.unsupportedCacheType gvk))

/-- Go `CacheStores.Add`. -/
def CacheStores.Add (c : CacheStores) (obj : Object) : Option Error × CacheStores :=
  match obj with
  | .kongFile obj => ((c.KongFiles.Add obj).1, { KongFiles := (c.KongFiles.Add obj).2 })
  | .other gvk => (some (.unsupportedAdd gvk), c)

/-- Go `CacheStores.Update`. -/
def CacheStores.Update (c : CacheStores) (obj : Object) : Option Error × CacheStores :=
  match obj with
  | .kongFile obj => ((c.KongFiles.Update obj).1, { KongFiles := (c.KongFiles.Update obj).2 })
  | .other gvk => (some (.unsupportedAdd gvk), c)

/-- Go `CacheStores.Delete`. -/
def CacheStores.Delete (c : CacheStores) (obj : Object) : Option Error × CacheStores :=
  match obj with
  | .kongFile obj => ((c.KongFiles.Delete obj).1, { KongFiles := (c.KongFiles.Delete obj).2 })
  | .other gvk => (some (.unsupportedDelete gvk), c)

/-- Every entry of the store sits under its own key; this is what `Add`, `Update` and
`Delete` maintain from the empty store on. -/
def CacheStores.WF (c : CacheStores) : Prop :=
  ∀ k v, c.KongFiles.items k = some v → keyFunc v = k

/-! ## Backend client (`internal/kong/file_service.go`) -/

/-- An HTTP request to the Admin API as built by `client.NewRequest(method, endpoint, nil, body)`. -/
structure Request where
  Method : String
  Endpoint : String
  Body : Option File
deriving DecidableEq, Repr

/-- The go-kong `*kong.Client` in front of a backend with states `β`.
`requestError` tells when `NewRequest` cannot build a request; `Do` sends one and gives the
error or the decoded answer together with the next backend state. -/
structure Client (β : Type) where
  requestError : String → String → Option File → Option Error
  Do : Request → β → Except Error File × β

/-- The remote backend: its state and, as a ghost field, the requests sent to it so far
(oldest first). -/
structure Backend (β : Type) where
  state : β
  requests : List Request := []

/-- Go `client.NewRequest(method, endpoint, nil, body)`. -/
def Client.NewRequest {β : Type} (c : Client β) (method endpoint : String)
    (body : Option File) : Except Error Request :=
  match c.requestError method endpoint body with
  | some err => .error err
  | none => .ok { Method := method, Endpoint := endpoint, Body := body }

/-- Go `client.Do(ctx, req, v)`: one round trip, recorded in `requests`. -/
def Client.send {β : Type} (c : Client β) (req : Request)
    (b : Backend β) : Except Error File × Backend β :=
  ((c.Do req b.state).1, { state := (c.Do req b.state).2, requests := b.requests ++ [req] })

/-- Go `unicode.IsSpace`. -/
def isSpace (c : Char) : Bool :=
  let n := c.toNat
  n = 0x09 || n = 0x0A || n = 0x0B || n = 0x0C || n = 0x0D || n = 0x20 || n = 0x85 ||
  n = 0xA0 || n = 0x1680 || (0x2000 ≤ n && n ≤ 0x200A) || n = 0x2028 || n = 0x2029 ||
  n = 0x202F || n = 0x205F || n = 0x3000

/-- Go `strings.TrimSpace`: drops leading and trailing white space. -/
def TrimSpace (s : String) : String :=
  String.mk ((s.data.dropWhile isSpace).reverse.dropWhile isSpace).reverse

/-- Go `isEmptyString`: nil, or blank after trimming. -/
def isEmptyString (s : Option String) : Bool :=
  match s with
  | none => true
  | some v => TrimSpace v = ""

/-- Go `*file.Path` behind the `isEmptyString` guard, which excludes nil. -/
def deref (s : Option String) : String :=
  s.getD ""

/-- Go `FileService.Get`: `(record, err)` and the backend afterwards. -/
def FileService.Get {β : Type} (c : Client β) (file : File)
    (b : Backend β) : (Option File × Option Error) × Backend β :=
  if isEmptyString file.Path then
    ((none, some (.text "Path cannot be nil for Get operation")), b)
  else
    match c.NewRequest "GET" ("/files/" ++ deref file.Path) none with
    | .error err => ((none, some err), b)
    | .ok req =>
      match (c.send req b).1 with
      | .error err => ((none, some err), (c.send req b).2)
      | .ok response => ((some response, none), (c.send req b).2)

/-- Go `FileService.Create`: `(record, err)` and the backend afterwards. There is no guard
on the path here: `*file.Path` on a nil pointer is a runtime panic. -/
def FileService.Create {β : Type} (c : Client β) (file : File)
    (b : Backend β) : (Option File × Option Error) × Backend β :=
  match file.Path with
  | none => ((none, some (.panic "nil pointer dereference")), b)
  | some path =>
    match c.NewRequest "PUT" ("/files/" ++ path) (some file) with
    | .error err => ((none, some err), b)
    | .ok req =>
      match (c.send req b).1 with
      | .error err => ((none, some err), (c.send req b).2)
      | .ok response => ((some response, none), (c.send req b).2)

/-- Go `FileService.Update`: `(record, err)` and the backend afterwards. -/
def FileService.Update {β : Type} (c : Client β) (file : File)
    (b : Backend β) : (Option File × Option Error) × Backend β :=
  if isEmptyString file.Path then
    ((none, some (.text "Path cannot be nil for Update operation")), b)
  else
    match c.NewRequest "PUT" ("/files/" ++ deref file.Path) (some file) with
    | .error err => ((none, some err), b)
    | .ok req =>
      match (c.send req b).1 with
      | .error err => ((none, some err), (c.send req b).2)
      | .ok response => ((some response, none), (c.send req b).2)

/-- Go `FileService.Delete`: `(file, err)` and the backend afterwards; the answer of the
round trip is not decoded. -/
def FileService.Delete {β : Type} (c : Client β) (file : File)
    (b : Backend β) : (Option File × Option Error) × Backend β :=
  if isEmptyString file.Path then
    ((some file, some (.text "Path cannot be nil for Delete operation")), b)
  else
    match c.NewRequest "DELETE" ("/files/" ++ deref file.Path) none with
    | .error err => ((some file, some err), b)
    | .ok req =>
      match (c.send req b).1 with
      | .error err => ((some file, some err), (c.send req b).2)
      | .ok _ => ((some file, none), (c.send req b).2)

/-! ## Proxy resolver (`internal/dataplane/proxy/cached_proxy_resolver.go`) -/

/-- Ghost record of the operations the reconciliation protocol invokes, oldest first. -/
inductive Call where
  | UpdateObject (obj : Object)
  | DeleteObject (obj : Object)
  | StatusUpdate (obj : KongFile)
deriving DecidableEq, Repr

/-- Go `semver.Version`, the parsed version of the backend. -/
structure Version where
  Major : Nat := 0
  Minor : Nat := 0
  Patch : Nat := 0
deriving DecidableEq, Repr, Inhabited

/-- Go `CachedProxyResolver`, with the fields the operations use (`configApplied`, `dbmode`,
`store`, `service`, `kongConfig.InMemory`, and `version`, which `kongConfig.Version`
repeats), together with the remote backend that `service` talks to and the ghost list of
the calls made so far. -/
structure CachedProxyResolver (β : Type) where
  configApplied : Bool := false
  dbmode : String := ""
  store : CacheStores
  service : Client β
  backend : Backend β
  calls : List Call := []
  InMemory : Bool := false
  version : Version := {}

/-- Go `CachedProxyResolver.UpdateObject`: the result of the cache write is dropped, the
error of the service call is returned. -/
def CachedProxyResolver.UpdateObject {β : Type} (p : CachedProxyResolver β)
    (obj : Object) : Option Error × CachedProxyResolver β :=
  match obj with
  | .kongFile kf =>
    ((FileService.Update p.service (Build kf) p.backend).1.2,
     { p with
       store := (p.store.Update obj).2,
       backend := (FileService.Update p.service (Build kf) p.backend).2,
       calls := p.calls ++ [.UpdateObject obj] })
  | .other gvk => (some (.unsupportedAdd gvk), { p with calls := p.calls ++ [.UpdateObject obj] })

/-- Go `CachedProxyResolver.DeleteObject`. -/
def CachedProxyResolver.DeleteObject {β : Type} (p : CachedProxyResolver β)
    (obj : Object) : Option Error × CachedProxyResolver β :=
  match obj with
  | .kongFile kf =>
    ((FileService.Delete p.service (Build kf) p.backend).1.2,
     { p with
       store := (p.store.Delete obj).2,
       backend := (FileService.Delete p.service (Build kf) p.backend).2,
       calls := p.calls ++ [.DeleteObject obj] })
  | .other gvk => (some (.unsupportedAdd gvk), { p with calls := p.calls ++ [.DeleteObject obj] })

/-- Go `CachedProxyResolver.ObjectExists`: asks the backend, never the cache. -/
def CachedProxyResolver.ObjectExists {β : Type} (p : CachedProxyResolver β)
    (obj : Object) : (Bool × Option Error) × CachedProxyResolver β :=
  match obj with
  | .kongFile kf =>
    match (FileService.Get p.service (Build kf) p.backend).1 with
    | (_, some err) =>
      ((false, some err), { p with backend := (FileService.Get p.service (Build kf) p.backend).2 })
    | (some _, none) =>
      ((true, none), { p with backend := (FileService.Get p.service (Build kf) p.backend).2 })
    | (none, none) =>
      ((false, none), { p with backend := (FileService.Get p.service (Build kf) p.backend).2 })
  | .other gvk => ((false, some (.unsupportedAdd gvk)), p)

/-- Go `CachedProxyResolver.ObjectExistsInCache`: `(cached, exists, err)`. -/
def CachedProxyResolver.ObjectExistsInCache {β : Type} (p : CachedProxyResolver β)
    (obj : Object) : Option Object × Bool × Option Error :=
  match (p.store.Get obj).1 with
  | some cached => (some (.kongFile cached), (p.store.Get obj).2.1, (p.store.Get obj).2.2)
  | none => (none, (p.store.Get obj).2.1, (p.store.Get obj).2.2)

/-- Go `CachedProxyResolver.IsReady`. -/
def CachedProxyResolver.IsReady {β : Type} (p : CachedProxyResolver β) : Bool :=
  if p.dbmode = "off" then p.configApplied else true

/-- An entry of the `configuration` map of the root response: a string, or any other value. -/
inductive ConfigValue where
  | str (s : String)
  | other
deriving DecidableEq, Repr

/-- A value of the root response (`interface{}`): a string, a `map[string]interface{}`, or
any other value. -/
inductive RootValue where
  | str (s : String)
  | map (entries : List (String × ConfigValue))
  | other
deriving DecidableEq, Repr

/-- The root response of the Admin API, a `map[string]interface{}`. -/
abbrev Root := List (String × RootValue)

/-- Go `CachedProxyResolver.initialize`. `rootResult` is what `kongRootWithTimeout` returned
and `parseVersion` stands for `kong.ParseSemanticVersion(kong.VersionFromInfo(root))`. -/
def CachedProxyResolver.initialize {β : Type} (p : CachedProxyResolver β)
    (parseVersion : Root → Except Error Version)
    (rootResult : Except Error Root) : Option Error × CachedProxyResolver β :=
  match rootResult with
  | .error err => (some err, p)
  | .ok root =>
    match root.lookup "configuration" with
    | some (.map proxyConfig) =>
      match proxyConfig.lookup "database" with
      | some (.str dbmode) =>
        if dbmode = "off" ∨ dbmode = "" then
          match parseVersion root with
          | .error err => (some err, { p with InMemory := true })
          | .ok proxySemver =>
            (none, { p with InMemory := true, dbmode := dbmode, version := proxySemver })
        else if dbmode = "postgres" then
          match parseVersion root with
          | .error err => (some err, { p with InMemory := false })
          | .ok proxySemver =>
            (none, { p with InMemory := false, dbmode := dbmode, version := proxySemver })
        else (some (.text (dbmode ++ " is not a supported database backend")), p)
      | _ => (some (.text "invalid database developer, expected a string"), p)
    | _ => (some (.text "invalid root configuration, expected a map[string]interface\x7b\x7d"), p)

/-- Go `NewCacheBasedProxyWithStagger`: the resolver, or nil and the error of `initialize`. -/
def NewCacheBasedProxyWithStagger {β : Type} (store : CacheStores) (service : Client β)
    (backend : Backend β) (parseVersion : Root → Except Error Version)
    (rootResult : Except Error Root) : Option (CachedProxyResolver β) × Option Error :=
  let proxy : CachedProxyResolver β :=
    { configApplied := false, store := store, service := service, backend := backend }
  match ( CachedProxyResolver.initialize proxy parseVersion rootResult).1 with
  | some err => (none, some err)
  | none => (some ( CachedProxyResolver.initialize proxy parseVersion rootResult).2, none)

/-! ## Class filter (`internal/annotations`, `internal/controllers/utils`) -/

/-- Go `annotations.AnnotationPrefix`. -/
def AnnotationPrefix : String := "developer.konghq.com"

/-- Go `annotations.ControllerClassKey`. -/
def ControllerClassKey : String := AnnotationPrefix ++ "/controller.class"

/-- Go `ctrlutils.HasAnnotation`: the key is present and carries the expected value. -/
def HasAnnotation (obj : KongFile) (key expectedValue : String) : Bool :=
  match obj.Annotations.lookup key with
  | some foundValue => foundValue = expectedValue
  | none => false

/-- Go `ctrlutils.MatchesControllerClassName`. -/
def MatchesControllerClassName (obj : KongFile) (ControllerClassName : String) : Bool :=
  HasAnnotation obj ControllerClassKey ControllerClassName

/-! ## Reconciliation protocol (`internal/controllers/developer/kongfile_controller.go`) -/

/-- Go `ctrl.Result`. -/
structure Result where
  Requeue : Bool := false
  RequeueAfter : Nat := 0
deriving DecidableEq, Repr, Inhabited

/-- Go `ctrl.Request`: the namespaced name of the object to reconcile. -/
structure NamespacedName where
  Namespace : String
  Name : String
deriving DecidableEq, Repr

/-- Outcome of `r.Get(ctx, req.NamespacedName, obj)` on the external object store. -/
inductive GetResult where
  | found (obj : KongFile)
  | notFound
  | failed (err : Error)
deriving DecidableEq, Repr

/-- Go `KongFileReconciler`: the external object store it reads (`Get`) and writes the
status to (`StatusUpdate`), and the configured class. The proxy is passed as state. -/
structure KongFileReconciler where
  Get : NamespacedName → GetResult
  StatusUpdate : KongFile → Option Error
  ControllerClassName : String

/-- Go `EnsureProxyDeleteObject`: `(result, exists, err)` and the proxy afterwards. -/
def EnsureProxyDeleteObject {β : Type} (proxy : CachedProxyResolver β)
    (obj : Object) : (Result × Bool × Option Error) × CachedProxyResolver β :=
  match proxy.ObjectExistsInCache obj with
  | (_, _, some err) => (({}, false, some err), proxy)
  | (cached, objectExistsInCache, none) =>
    if objectExistsInCache then
      match cached with
      | none => (({}, true, some (.panic "nil object")), proxy)
      | some cached =>
        match (proxy.DeleteObject cached).1 with
        | some err => (({}, true, some err), (proxy.DeleteObject cached).2)
        | none => (({ Requeue := true }, true, none), (proxy.DeleteObject cached).2)
    else (({}, false, none), proxy)

/-- Go `!obj.DeletionTimestamp.IsZero() && time.Now().After(obj.DeletionTimestamp.Time)`. -/
def deletionElapsed (now : Time) (t : Option Time) : Bool :=
  match t with
  | none => false
  | some v => v ≠ 0 && v < now

/-- Go `KongFileReconciler.Reconcile` at time `now`: `(result, err)` and the proxy afterwards. -/
def KongFileReconciler.Reconcile {β : Type} (r : KongFileReconciler) (now : Time)
    (req : NamespacedName)
    (proxy : CachedProxyResolver β) : (Result × Option Error) × CachedProxyResolver β :=
  match r.Get req with
  | .notFound =>
    let obj : KongFile := { Namespace := req.Namespace, Name := req.Name }
    (((EnsureProxyDeleteObject proxy (.kongFile obj)).1.1,
      (EnsureProxyDeleteObject proxy (.kongFile obj)).1.2.2),
     (EnsureProxyDeleteObject proxy (.kongFile obj)).2)
  | .failed err => (({}, some err), proxy)
  | .found obj =>
    if deletionElapsed now obj.DeletionTimestamp then
      match (proxy.ObjectExists (.kongFile obj)).1 with
      | (_, some err) => (({}, some err), (proxy.ObjectExists (.kongFile obj)).2)
      | (objectExistsInCache, none) =>
        if objectExistsInCache then
          match ((proxy.ObjectExists (.kongFile obj)).2.DeleteObject (.kongFile obj)).1 with
          | some err =>
            (({}, some err), ((proxy.ObjectExists (.kongFile obj)).2.DeleteObject (.kongFile obj)).2)
          | none =>
            (({ Requeue := true }, none),
             ((proxy.ObjectExists (.kongFile obj)).2.DeleteObject (.kongFile obj)).2)
        else (({}, none), (proxy.ObjectExists (.kongFile obj)).2)
    else if !MatchesControllerClassName obj r.ControllerClassName then (({}, none), proxy)
    else if obj.Status.Validated = false then
      match (proxy.UpdateObject (.kongFile obj)).1 with
      | some err => (({}, some err), (proxy.UpdateObject (.kongFile obj)).2)
      | none =>
        -- `obj.Status.Validated = true`: the cache holds this very pointer, so the
        -- assignment shows in the cached entry too
        let validated : KongFile := { obj with Status := { Validated := true } }
        let updated := (proxy.UpdateObject (.kongFile obj)).2
        let after : CachedProxyResolver β :=
          { updated with
            store := { KongFiles := updated.store.KongFiles.assign (keyFunc obj) validated },
            calls := updated.calls ++ [.StatusUpdate validated] }
        match r.StatusUpdate validated with
        | some err => (({}, some err), after)
        | none => (({}, none), after)
    else (({}, none), proxy)

/-! ## Class matching (`internal/annotations/annotations.go`) -/

/-- Go `type ClassMatching int`. -/
abbrev ClassMatching := Int

/-- Go `IgnoreClassMatch`. -/
def IgnoreClassMatch : ClassMatching := 0

/-- Go `ExactOrEmptyClassMatch`. -/
def ExactOrEmptyClassMatch : ClassMatching := 1

/-- Go `ExactClassMatch`. -/
def ExactClassMatch : ClassMatching := 2

/-- Go `validController`; the `default` branch of the switch panics, which is the error
result here. -/
def validController (controllerAnnotationValue controllerClass : String)
    (handling : ClassMatching) : Except String Bool :=
  if handling = IgnoreClassMatch then .ok true
  else if handling = ExactOrEmptyClassMatch then
    .ok (controllerAnnotationValue = "" || controllerAnnotationValue = controllerClass)
  else if handling = ExactClassMatch then
    .ok (controllerAnnotationValue = controllerClass)
  else .error "controller class handling option received"

/-- Go `ControllerClassValidator`: reads the class annotation of the object (the empty
string when it is missing) and hands it to `validController`. -/
def ControllerClassValidator (controllerClass : String) (annotations : List (String × String))
    (handling : ClassMatching) : Except String Bool :=
  validController ((annotations.lookup ControllerClassKey).getD "") controllerClass handling

/-! ## Event predicates (`internal/controllers/utils/utils.go`) -/

/-- Go `IsControllerClassAnnotationConfigured`. -/
def IsControllerClassAnnotationConfigured (obj : KongFile)
    (expectedControllerClassName : String) : Bool :=
  match obj.Annotations.lookup ControllerClassKey with
  | some foundControllerClassName => foundControllerClassName = expectedControllerClassName
  | none => false

/-- Go `IsControllerClassSpecConfigured`: always true. -/
def IsControllerClassSpecConfigured (_obj : KongFile)
    (_expectedControllerClassName : String) : Bool :=
  true

/-- Go `event.UpdateEvent`. -/
structure UpdateEvent where
  ObjectOld : KongFile
  ObjectNew : KongFile
deriving DecidableEq, Repr

/-- Go `predicate.Funcs`: create, delete and generic events carry one object. -/
structure Funcs where
  CreateFunc : KongFile → Bool
  DeleteFunc : KongFile → Bool
  UpdateFunc : UpdateEvent → Bool
  GenericFunc : KongFile → Bool

/-- Go `GeneratePredicateFuncsForControllerClassFilter`: `predicate.NewPredicateFuncs` puts
the filter on every kind of event, then `UpdateFunc` is replaced. -/
def GeneratePredicateFuncsForControllerClassFilter (name : String)
    (specCheckEnabled annotationCheckEnabled : Bool) : Funcs :=
  let filter := fun (obj : KongFile) =>
    if annotationCheckEnabled && IsControllerClassAnnotationConfigured obj name then true
    else if specCheckEnabled && IsControllerClassSpecConfigured obj name then true
    else false
  { CreateFunc := filter,
    DeleteFunc := filter,
    GenericFunc := filter,
    UpdateFunc := fun e =>
      if (annotationCheckEnabled && IsControllerClassAnnotationConfigured e.ObjectOld name) ||
          IsControllerClassAnnotationConfigured e.ObjectNew name then true
      else if (specCheckEnabled && IsControllerClassSpecConfigured e.ObjectOld name) ||
          IsControllerClassSpecConfigured e.ObjectNew name then true
      else false }

/-! ## Admission gateway (`internal/admission/server.go`) -/

/-- Go `ServerConfig`. -/
structure ServerConfig where
  ListenAddr : String := ""
  CertPath : String := ""
  Cert : String := ""
  KeyPath : String := ""
  Key : String := ""
deriving DecidableEq, Repr

/-- Go `DefaultAdmissionWebhookCertPath`. -/
def DefaultAdmissionWebhookCertPath : String := "/admission-webhook/tls.crt"

/-- Go `DefaultAdmissionWebhookKeyPath`. -/
def DefaultAdmissionWebhookKeyPath : String := "/admission-webhook/tls.key"

/-- Go `tls.Certificate` as built from a certificate and a key. -/
structure Certificate where
  Cert : String
  Key : String
deriving DecidableEq, Repr

/-- Go `tls.Config` with the two fields `toTLSConfig` sets. -/
structure TLSConfig where
  MinVersion : Nat
  Certificates : List Certificate
deriving DecidableEq, Repr

/-- Go `tls.VersionTLS12`. -/
def VersionTLS12 : Nat := 0x0303

/-- The file system and the key-pair parser behind `toTLSConfig`: `os.ReadFile` and
`tls.X509KeyPair`. -/
structure Host where
  ReadFile : String → Except Error String
  X509KeyPair : String → String → Except Error Certificate

/-- Ghost record of what `toTLSConfig` asked of the platform, oldest first. -/
inductive TLSCall where
  | ReadFile (path : String)
  | X509KeyPair (cert key : String)
deriving DecidableEq, Repr

/-- Go `readKeyPairFiles`: `(cert, key, err)` and the files read. -/
def readKeyPairFiles (P : Host)
    (certPath keyPath : String) : Except Error (String × String) × List TLSCall :=
  match P.ReadFile certPath with
  | .error err => (.error (.readCert certPath err), [.ReadFile certPath])
  | .ok cert =>
    match P.ReadFile keyPath with
    | .error err => (.error (.readKey keyPath err), [.ReadFile certPath, .ReadFile keyPath])
    | .ok key => (.ok (cert, key), [.ReadFile certPath, .ReadFile keyPath])

/-- The error of the `default` branch of `toTLSConfig`. -/
def errTLSCombination : Error :=
  .text "either cert/key files OR cert/key values must be provided, or none"

/-- The tail of Go `toTLSConfig` once `cert` and `key` are known; `calls` is what was asked
of the platform before. -/
def loadKeyPair (P : Host) (cert key : String)
    (calls : List TLSCall) : (Option TLSConfig × Option Error) × List TLSCall :=
  match P.X509KeyPair cert key with
  | .error err => ((none, some (.x509 err)), calls ++ [.X509KeyPair cert key])
  | .ok keyPair =>
    ((some { MinVersion := VersionTLS12, Certificates := [keyPair] }, none),
      calls ++ [.X509KeyPair cert key])

/-- Go `ServerConfig.toTLSConfig`: `(config, err)` and what was asked of the platform. -/
def ServerConfig.toTLSConfig (sc : ServerConfig)
    (P : Host) : (Option TLSConfig × Option Error) × List TLSCall :=
  if sc.CertPath = "" ∧ sc.KeyPath = "" ∧ sc.Cert ≠ "" ∧ sc.Key ≠ "" then
    loadKeyPair P sc.Cert sc.Key []
  else if sc.CertPath ≠ "" ∧ sc.KeyPath ≠ "" ∧ sc.Cert = "" ∧ sc.Key = "" then
    match (readKeyPairFiles P sc.CertPath sc.KeyPath).1 with
    | .error err => ((none, some err), (readKeyPairFiles P sc.CertPath sc.KeyPath).2)
    | .ok (cert, key) => loadKeyPair P cert key (readKeyPairFiles P sc.CertPath sc.KeyPath).2
  else if sc.CertPath = "" ∧ sc.KeyPath = "" ∧ sc.Cert = "" ∧ sc.Key = "" then
    match (readKeyPairFiles P DefaultAdmissionWebhookCertPath
      DefaultAdmissionWebhookKeyPath).1 with
    | .error err =>
      ((none, some err),
        (readKeyPairFiles P DefaultAdmissionWebhookCertPath DefaultAdmissionWebhookKeyPath).2)
    | .ok (cert, key) =>
      loadKeyPair P cert key
        (readKeyPairFiles P DefaultAdmissionWebhookCertPath DefaultAdmissionWebhookKeyPath).2
  else ((none, some errTLSCombination), [])

/-- Go `meta.GroupVersionResource`. -/
structure GroupVersionResource where
  Group : String
  Version : String
  Resource : String
deriving DecidableEq, Repr

/-- Go `admission.AdmissionRequest` with the fields the handler reads; `Raw` is
`request.Object.Raw`. -/
structure AdmissionRequest where
  UID : String
  Resource : GroupVersionResource
  Raw : String
deriving DecidableEq, Repr

/-- Go `meta.Status` with the fields the handler sets. -/
structure Status where
  Message : String := ""
  Code : Nat := 0
deriving DecidableEq, Repr

/-- Go `admission.AdmissionResponse` with the fields the handler sets. -/
structure AdmissionResponse where
  UID : String := ""
  Allowed : Bool := false
  Result : Option Status := none
deriving DecidableEq, Repr

/-- Go `admission.AdmissionReview`: request and response are pointers. -/
structure AdmissionReview where
  Request : Option AdmissionRequest := none
  Response : Option AdmissionResponse := none
deriving DecidableEq, Repr

/-- What the admission package takes from outside the sources at hand: the group and version
of `developer.SchemeGroupVersion`, the decoder `codecs.UniversalDeserializer().Decode`, and
`json.Unmarshal` and `json.Marshal` on admission reviews. -/
structure Codecs where
  Group : String
  Version : String
  Decode : String → Except Error KongFile
  Unmarshal : String → Except Error AdmissionReview
  Marshal : AdmissionReview → Except Error String

/-- Go `kongFileGVResource`. -/
def kongFileGVResource (E : Codecs) : GroupVersionResource :=
  { Group := E.Group, Version := E.Version, Resource := "kongfiles" }

/-- Go `RequestHandler`: `Validator` is a value of the interface `KongValidator`, that is,
any function from a KongFile to `(allowed, reason, err)`. -/
structure RequestHandler where
  Validator : KongFile → Bool × String × Option Error

/-- Go `RequestHandler.handleValidation`: `(response, err)`. -/
def RequestHandler.handleValidation (a : RequestHandler) (E : Codecs)
    (request : AdmissionRequest) : Option AdmissionResponse × Option Error :=
  if request.Resource = kongFileGVResource E then
    match E.Decode request.Raw with
    | .error err => (none, some err)
    | .ok plugin =>
      match a.Validator plugin with
      | (_, _, some err) => (none, some err)
      | (ok, message, none) =>
        (some { UID := request.UID, Allowed := ok,
                Result := some { Message := message, Code := if !ok then 400 else 0 } }, none)
  else
    (none, some (.unknownResource request.Resource.Group request.Resource.Version
      request.Resource.Resource))

/-- Go `http.Request` as far as `ServeHTTP` reads it: `Body` is nil, or what `io.ReadAll`
gives on it. -/
structure HTTPRequest where
  Body : Option (Except Error String)

/-- What `ServeHTTP` does with the `http.ResponseWriter`. -/
inductive WriterCall where
  /-- Go `w.Write(data)`. -/
  | Write (data : String)
  /-- Go `http.Error(w, err.Error(), code)`. -/
  | Error (err : Error) (code : Nat)
deriving DecidableEq, Repr

/-- How a call of `ServeHTTP` ends: it returns after the given calls on the writer, or it
panics. -/
inductive Served where
  | returned (calls : List WriterCall)
  | panicked (msg : String)
deriving DecidableEq, Repr

/-- Go `http.StatusBadRequest`. -/
def StatusBadRequest : Nat := 400

/-- Go `http.StatusInternalServerError`. -/
def StatusInternalServerError : Nat := 500

/-- Go `RequestHandler.ServeHTTP`; `write` is the outcome of `w.Write`. -/
def RequestHandler.ServeHTTP (a : RequestHandler) (E : Codecs) (write : String → Option Error)
    (r : HTTPRequest) : Served :=
  match r.Body with
  | none => .returned [.Error (.text "admission review object is missing") StatusBadRequest]
  | some (.error err) => .returned [.Error err StatusInternalServerError]
  | some (.ok data) =>
    match E.Unmarshal data with
    | .error err => .returned [.Error err StatusBadRequest]
    | .ok review =>
      match review.Request with
      | none => .panicked "nil pointer dereference"
      | some request =>
        match a.handleValidation E request with
        | (_, some err) => .returned [.Error err StatusInternalServerError]
        | (response, none) =>
          match E.Marshal { review with Response := response } with
          | .error err => .returned [.Error err StatusInternalServerError]
          | .ok data =>
            match write data with
            | some err => .returned [.Write data, .Error err StatusInternalServerError]
            | none => .returned [.Write data]

/-! ## Specification-side definitions -/

/-- The invariant of a desired-state object in the words of the specification: `name`,
`spec.name` and `spec.path` are non-empty and, for kind CONTENT, so are `title` and `layout`. -/
def KongFile.Valid (kf : KongFile) : Prop :=
  kf.Name ≠ "" ∧ kf.Spec.Name ≠ "" ∧ kf.Spec.Path ≠ "" ∧
    (kf.Spec.Kind = CONTENT → kf.Spec.Title ≠ "" ∧ kf.Spec.Layout ≠ "")

instance (kf : KongFile) : Decidable kf.Valid := by
  unfold KongFile.Valid
  infer_instance

/-- The rules of the Validator in the order the specification lists them, each as
`(fails, reason)`; the last two apply to kind CONTENT only. -/
def rules (R : Reasons) (kf : KongFile) : List (Bool × String) :=
  [ (decide (kf.Name = ""), R.ErrKongFileNameEmpty),
    (decide (kf.Spec.Name = ""), R.ErrKongFileSpecNameEmpty),
    (decide (kf.Spec.Path = ""), R.ErrKongFileSpecPathEmpty),
    (decide (kf.Spec.Kind = CONTENT ∧ kf.Spec.Title = ""), R.ErrKongFileSpecTitleEmpty),
    (decide (kf.Spec.Kind = CONTENT ∧ kf.Spec.Layout = ""), R.ErrKongFileSpecLayoutEmpty) ]

/-- The reason of the first failing rule of a list, if one fails. -/
def firstFailing (l : List (Bool × String)) : Option String :=
  (l.find? (fun r => r.1)).map (fun r => r.2)

/-- Reasons with the three texts the specification quotes; the texts for title and layout,
which it does not quote, follow the same pattern. -/
def specReasons : Reasons :=
  { ErrKongFileNameEmpty := "name must not be empty.",
    ErrKongFileSpecNameEmpty := "spec name must not be empty.",
    ErrKongFileSpecPathEmpty := "spec path must not be empty.",
    ErrKongFileSpecTitleEmpty := "spec title must not be empty.",
    ErrKongFileSpecLayoutEmpty := "spec layout must not be empty." }

/-- The object of end-to-end scenario 1. -/
def scenario1 : KongFile :=
  { Name := "a",
    Spec := { Name := "a", Path := "p", Kind := CONTENT, Title := "T", Layout := "L", Content := "hi" } }

/-- The object of end-to-end scenario 2: `spec.path` is empty, and so are title and layout. -/
def scenario2 : KongFile :=
  { Name := "a", Spec := { Name := "a", Path := "", Kind := CONTENT } }

/-- An ASSET object. -/
def assetFile : KongFile :=
  { Name := "x", Spec := { Name := "logo.png", Path := "img", Kind := ASSET } }

/-- An object with the kind, path and name of `assetFile` and other fields changed. -/
def assetFileCopy : KongFile :=
  { Name := "y",
    Spec := { Name := "logo.png", Path := "img", Kind := ASSET, Title := "t", Content := "c" } }

/-- A SPECIFICATION object. -/
def specFile : KongFile :=
  { Name := "api",
    Spec := { Name := "api.yaml", Path := "v1", Kind := SPECIFICATION, Content := "openapi: 3.0.0" } }

/-- A KongFile whose `kind` field is left out, with some content. -/
def kindlessFile : KongFile :=
  { Name := "a", Namespace := "ns", Spec := { Name := "a", Path := "p", Content := "x" } }

/-- The entry the cache holds for an object, if any; objects of another kind have none. -/
def CachedProxyResolver.cached {β : Type} (p : CachedProxyResolver β) : Object → Option KongFile
  | .kongFile kf => p.store.KongFiles.items (keyFunc kf)
  | .other _ => none

/-- The remote Admin API seen as a map from request path (`/files/<path>`) to record. -/
abbrev FileMap := String → Option File

/-- A client in front of a `FileMap` backend: PUT-by-path overwrites the record under the
path and answers with it, GET reads it, DELETE removes it; `re` is the client's
`requestError`. -/
def mapClient (re : String → String → Option File → Option Error) : Client FileMap :=
  { requestError := re,
    Do := fun req m =>
      if req.Method = "PUT" then
        match req.Body with
        | some file => (.ok file, fun k => if k = req.Endpoint then some file else m k)
        | none => (.error (.backend "missing body"), m)
      else if req.Method = "GET" then
        match m req.Endpoint with
        | some file => (.ok file, m)
        | none => (.error (.backend "not found"), m)
      else if req.Method = "DELETE" then
        (.ok {}, fun k => if k = req.Endpoint then none else m k)
      else (.error (.backend "method not allowed"), m) }

/-- A resolver in front of an empty `FileMap` backend whose cache holds `scenario1`. -/
def cachedResolver : CachedProxyResolver FileMap :=
  { store := (NewCacheStores.Update (.kongFile scenario1)).2,
    service := mapClient (fun _ _ _ => none),
    backend := { state := fun _ => none } }

/-- A reconciler whose external object store holds no object. -/
def emptyReconciler : KongFileReconciler :=
  { Get := fun _ => .notFound, StatusUpdate := fun _ => none, ControllerClassName := "kong" }

/-- An object is pending deletion at `now`, in the words of the specification: its deletion
timestamp is set (present and not the zero time) and earlier than `now`. -/
def KongFile.PendingDeletion (obj : KongFile) (now : Time) : Prop :=
  ∃ t, obj.DeletionTimestamp = some t ∧ t ≠ 0 ∧ t < now

/-- The object after the assignment `obj.Status.Validated = true`. -/
def KongFile.validated (obj : KongFile) : KongFile :=
  { obj with Status := { Validated := true } }

/-- The proxy after `Reconcile` has set `obj.Status.Validated = true` and written the
status: the cached entry shows the assignment and the status write is recorded. -/
def CachedProxyResolver.statusWritten {β : Type} (p : CachedProxyResolver β)
    (obj : KongFile) : CachedProxyResolver β :=
  { p with
    store := { KongFiles := p.store.KongFiles.assign (keyFunc obj) obj.validated },
    calls := p.calls ++ [.StatusUpdate obj.validated] }

/-- The object `scenario1` annotated with the controller class `kong`. -/
def classedFile : KongFile :=
  { scenario1 with Annotations := [(ControllerClassKey, "kong")] }

/-- The object `classedFile` with a deletion timestamp at instant 3. -/
def deletingFile : KongFile :=
  { classedFile with DeletionTimestamp := some 3 }

/-- A reconciler of class `kong` whose external object store answers every lookup with
`obj` and accepts every status write. -/
def foundReconciler (obj : KongFile) : KongFileReconciler :=
  { Get := fun _ => .found obj, StatusUpdate := fun _ => none, ControllerClassName := "kong" }

/-- The name under which `scenario1` is reconciled. -/
def scenarioName : NamespacedName :=
  { Namespace := "", Name := "a" }

/-- The resolver `cachedResolver` after `scenario1` was pushed to the backend. -/
def syncedResolver : CachedProxyResolver FileMap :=
  (cachedResolver.UpdateObject (.kongFile scenario1)).2

/-- A version parser that accepts every root response. -/
def parseOk : Root → Except Error Version :=
  fun _ => .ok { Major := 2, Minor := 8, Patch := 0 }

/-- A root response of a backend without database, mode `off`. -/
def offRoot : Root :=
  [("version", .str "2.8.0"), ("configuration", .map [("database", .str "off")])]

/-- A root response of a backend without database, mode left empty. -/
def emptyModeRoot : Root :=
  [("version", .str "2.8.0"), ("configuration", .map [("database", .str "")])]

/-- A root response of a backend with a postgres database. -/
def postgresRoot : Root :=
  [("version", .str "2.8.0"), ("configuration", .map [("database", .str "postgres")])]

/-- A resolver as `NewCacheBasedProxyWithStagger` sets it up before `initialize`, in front
of an empty `FileMap` backend. -/
def freshResolver : CachedProxyResolver FileMap :=
  { configApplied := false, store := NewCacheStores, service := mapClient (fun _ _ _ => none),
    backend := { state := fun _ => none } }

/-- The resolver `freshResolver` initialised against a backend in mode `off`. -/
def offResolver : CachedProxyResolver FileMap :=
  ( CachedProxyResolver.initialize freshResolver parseOk (.ok offRoot)).2

/-- The resolver `freshResolver` initialised against a backend whose mode is left empty. -/
def emptyModeResolver : CachedProxyResolver FileMap :=
  ( CachedProxyResolver.initialize freshResolver parseOk (.ok emptyModeRoot)).2

/-- A `FileMap` client that can build every request. -/
def plainClient : Client FileMap :=
  mapClient (fun _ _ _ => none)

/-- A `FileMap` backend without records, to which nothing was sent yet. -/
def emptyBackend : Backend FileMap :=
  { state := fun _ => none }

/-- A file record whose path is the empty string. -/
def emptyPathFile : File :=
  { Path := some "", Contents := some "x" }

/-- The in-memory form of a TLS configuration: both values set, both paths empty. -/
def ServerConfig.inMemoryPair (sc : ServerConfig) : Prop :=
  sc.Cert ≠ "" ∧ sc.Key ≠ "" ∧ sc.CertPath = "" ∧ sc.KeyPath = ""

/-- The file form of a TLS configuration: both paths set, both values empty. -/
def ServerConfig.filePair (sc : ServerConfig) : Prop :=
  sc.CertPath ≠ "" ∧ sc.KeyPath ≠ "" ∧ sc.Cert = "" ∧ sc.Key = ""

/-- The default form of a TLS configuration: all four strings empty. -/
def ServerConfig.allEmpty (sc : ServerConfig) : Prop :=
  sc.CertPath = "" ∧ sc.KeyPath = "" ∧ sc.Cert = "" ∧ sc.Key = ""

/-- What both file branches of `toTLSConfig` do with their two paths: read the files, then
parse the key pair. -/
def keyPairFromFiles (P : Host)
    (certPath keyPath : String) : (Option TLSConfig × Option Error) × List TLSCall :=
  match (readKeyPairFiles P certPath keyPath).1 with
  | .error err => ((none, some err), (readKeyPairFiles P certPath keyPath).2)
  | .ok (cert, key) => loadKeyPair P cert key (readKeyPairFiles P certPath keyPath).2

/-- A host without files whose key-pair parser accepts everything. -/
def bareHost : Host :=
  { ReadFile := fun _ => .error (.text "no such file or directory"),
    X509KeyPair := fun cert key => .ok { Cert := cert, Key := key } }

/-- Codecs for the examples: the raw object `scenario1` decodes to `scenario1`, the raw
object `scenario2` to `scenario2`, and the body `{}` parses as a review without request,
the body `review1` as a review that asks about `scenario1`, the body `review2` as one that
asks about a Pod. -/
def exampleCodecs : Codecs :=
  { Group := "developer.konghq.com",
    Version := "v1",
    Decode := fun raw =>
      if raw = "scenario1" then .ok scenario1
      else if raw = "scenario2" then .ok scenario2
      else .error (.text "couldn't get version/kind"),
    Unmarshal := fun data =>
      if data = "\x7b\x7d" then .ok {}
      else if data = "review1" then
        .ok { Request := some { UID := "uid-1", Raw := "scenario1",
                                Resource := { Group := "developer.konghq.com", Version := "v1",
                                              Resource := "kongfiles" } } }
      else if data = "review2" then
        .ok { Request := some { UID := "uid-2", Raw := "pod",
                                Resource := { Group := "", Version := "v1",
                                              Resource := "pods" } } }
      else .error (.text "unexpected end of JSON input"),
    Marshal := fun _ => .ok "review" }

/-- The handler with the validator of the repository. -/
def exampleHandler : RequestHandler :=
  { Validator := ValidateKongFile specReasons }

/-- A handler whose validator fails on every object. -/
def failingHandler : RequestHandler :=
  { Validator := fun _ => (false, "", some (.backend "lookup failed")) }

/-- An admission request about the raw object `raw` of the kongfiles resource. -/
def kongFileRequest (raw : String) : AdmissionRequest :=
  { UID := "uid-1", Raw := raw, Resource := kongFileGVResource exampleCodecs }

/-- An admission request about a Pod. -/
def podRequest : AdmissionRequest :=
  { UID := "uid-2", Raw := "pod", Resource := { Group := "", Version := "v1", Resource := "pods" } }

/-! ## Helper lemmas -/

theorem Build_content (kf : KongFile) (h : kf.Spec.Kind = CONTENT) :
    Build kf =
      { Path := some ("content/" ++ kf.Spec.Path ++ "/" ++ kf.Spec.Name),
        Contents := some ("---\n" ++ "title: " ++ kf.Spec.Title ++ "\n" ++
          "layout: " ++ kf.Spec.Layout ++ "\n" ++ "---\n" ++ kf.Spec.Content) } := by
  simp [Build, h]

theorem Build_asset (kf : KongFile) (h : kf.Spec.Kind = ASSET) :
    Build kf =
      { Path := some ("base/assets/" ++ kf.Spec.Path ++ "/" ++ kf.Spec.Name),
        Contents := some kf.Spec.Content } := by
  have h1 : ASSET ≠ CONTENT := by decide
  simp [Build, h, h1]

theorem Build_specification (kf : KongFile) (h : kf.Spec.Kind = SPECIFICATION) :
    Build kf =
      { Path := some ("specs/" ++ kf.Spec.Path ++ "/" ++ kf.Spec.Name),
        Contents := some kf.Spec.Content } := by
  have h1 : SPECIFICATION ≠ CONTENT := by decide
  have h2 : SPECIFICATION ≠ ASSET := by decide
  simp [Build, h, h1, h2]

/-- The first character of a string that starts with a non-empty literal. -/
theorem head_append (a b : String) (c : Char) (h : a.data.head? = some c) :
    (a ++ b).data.head? = some c := by
  rw [String.data_append]
  cases hd : a.data with
  | nil => simp [hd] at h
  | cons x xs => simpa [hd] using h

/-! ## Validator -/

/-- C1: `ValidateKongFile` never returns an error; it allows with an empty reason exactly
when the object satisfies the invariant (name, spec.name, spec.path non-empty and, for kind
CONTENT, title and layout non-empty), and denies in every other case. -/
theorem ValidateKongFile_allowed_iff (R : Reasons) (kf : KongFile) :
    (ValidateKongFile R kf).2.2 = none ∧
    (((ValidateKongFile R kf).1 = true ∧ (ValidateKongFile R kf).2.1 = "") ↔ kf.Valid) ∧
    (¬ kf.Valid → (ValidateKongFile R kf).1 = false) := by
  unfold ValidateKongFile KongFile.Valid
  split_ifs <;> simp_all

/-- Witness of C1 on the object of scenario 1, which is allowed with an empty reason. -/
theorem ValidateKongFile_allowed_iff_witness :
    scenario1.Valid ∧ (ValidateKongFile specReasons scenario1).1 = true ∧
      (ValidateKongFile specReasons scenario1).2.1 = "" :=
  ⟨by decide, (ValidateKongFile_allowed_iff specReasons scenario1).2.1.mpr (by decide)⟩

/-- C2: when `ValidateKongFile` denies, its reason is the reason of the first failing rule
in the order name, spec.name, spec.path, title, layout (the last two for kind CONTENT only);
an empty name gets the name reason whatever the other fields are, and an empty spec.path
behind a non-empty name and spec.name gets the spec-path reason whatever title and layout are. -/
theorem ValidateKongFile_first_failing (R : Reasons) (kf : KongFile) :
    ((ValidateKongFile R kf).1 = false →
      firstFailing (rules R kf) = some (ValidateKongFile R kf).2.1) ∧
    (kf.Name = "" → ValidateKongFile R kf = (false, R.ErrKongFileNameEmpty, none)) ∧
    (kf.Name ≠ "" → kf.Spec.Name ≠ "" → kf.Spec.Path = "" →
      ValidateKongFile R kf = (false, R.ErrKongFileSpecPathEmpty, none)) := by
  unfold ValidateKongFile firstFailing rules
  split_ifs <;> simp_all [List.find?]

/-- Witness of C2 on the object of scenario 2: empty spec.path, title and layout. -/
theorem ValidateKongFile_first_failing_witness :
    scenario2.Spec.Title = "" ∧ scenario2.Spec.Layout = "" ∧
      ValidateKongFile specReasons scenario2 =
        (false, "spec path must not be empty.", none) :=
  ⟨by decide, by decide,
    (ValidateKongFile_first_failing specReasons scenario2).2.2 (by decide) (by decide) (by decide)⟩

/-! ## Path and content mapping -/

/-- C3: `Build` maps kind CONTENT to `content/<path>/<name>`, ASSET to
`base/assets/<path>/<name>` and SPECIFICATION to `specs/<path>/<name>`; two objects that
agree on spec.kind, spec.path and spec.name get the same path whatever their other fields
are; the object of scenario 1 maps to `content/p/a`. -/
theorem Build_path (kf : KongFile) :
    (kf.Spec.Kind = CONTENT →
      (Build kf).Path = some ("content/" ++ kf.Spec.Path ++ "/" ++ kf.Spec.Name)) ∧
    (kf.Spec.Kind = ASSET →
      (Build kf).Path = some ("base/assets/" ++ kf.Spec.Path ++ "/" ++ kf.Spec.Name)) ∧
    (kf.Spec.Kind = SPECIFICATION →
      (Build kf).Path = some ("specs/" ++ kf.Spec.Path ++ "/" ++ kf.Spec.Name)) ∧
    (∀ other : KongFile, other.Spec.Kind = kf.Spec.Kind → other.Spec.Path = kf.Spec.Path →
      other.Spec.Name = kf.Spec.Name → (Build other).Path = (Build kf).Path) ∧
    (Build scenario1).Path = some "content/p/a" := by
  refine ⟨fun h => ?_, fun h => ?_, fun h => ?_, fun other hk hp hn => ?_, by decide⟩
  · rw [Build_content kf h]
  · rw [Build_asset kf h]
  · rw [Build_specification kf h]
  · simp only [Build, hk, hp, hn]
    split_ifs <;> rfl

/-- Witness of C3: an ASSET object and a copy that differs in name, title and content. -/
theorem Build_path_witness :
    (Build assetFile).Path = some "base/assets/img/logo.png" ∧
      (Build assetFileCopy).Path = (Build assetFile).Path :=
  ⟨(Build_path assetFile).2.1 rfl, (Build_path assetFile).2.2.2.1 assetFileCopy rfl rfl rfl⟩

/-- C4 as stated fails: a KongFile whose kind is none of CONTENT, ASSET, SPECIFICATION (here
the kind is left out) gets empty contents, not its spec.content. -/
theorem Build_contents_other_kind_counterexample :
    kindlessFile.Spec.Kind ≠ CONTENT ∧ kindlessFile.Spec.Content = "x" ∧
      (Build kindlessFile).Contents = some "" ∧
      (Build kindlessFile).Contents ≠ some kindlessFile.Spec.Content := by
  decide

/-- C4 (amended): for kind CONTENT the contents are the front-matter block of title and
layout followed by spec.content; for kind ASSET and for kind SPECIFICATION the contents are
spec.content verbatim. -/
theorem Build_contents (kf : KongFile) :
    (kf.Spec.Kind = CONTENT →
      (Build kf).Contents = some ("---" ++ "\n" ++ "title: " ++ kf.Spec.Title ++ "\n" ++
        "layout: " ++ kf.Spec.Layout ++ "\n" ++ "---" ++ "\n" ++ kf.Spec.Content)) ∧
    (kf.Spec.Kind = ASSET ∨ kf.Spec.Kind = SPECIFICATION →
      (Build kf).Contents = some kf.Spec.Content) := by
  refine ⟨fun h => ?_, fun h => ?_⟩
  · rw [Build_content kf h]
    simp [String.append_assoc]
  · rcases h with h | h
    · rw [Build_asset kf h]
    · rw [Build_specification kf h]

/-- Witness of C4 (amended): the contents of scenario 1 and of a SPECIFICATION object. -/
theorem Build_contents_witness :
    (Build scenario1).Contents = some "---\ntitle: T\nlayout: L\n---\nhi" ∧
      (Build specFile).Contents = some "openapi: 3.0.0" :=
  ⟨(Build_contents scenario1).1 rfl, (Build_contents specFile).2 (Or.inr rfl)⟩

/-- A path built from one of the three prefixes starts with the first character of it. -/
theorem Build_path_head (kf : KongFile) :
    (kf.Spec.Kind = CONTENT → ((Build kf).Path.getD "").data.head? = some 'c') ∧
    (kf.Spec.Kind = ASSET → ((Build kf).Path.getD "").data.head? = some 'b') ∧
    (kf.Spec.Kind = SPECIFICATION → ((Build kf).Path.getD "").data.head? = some 's') := by
  refine ⟨fun h => ?_, fun h => ?_, fun h => ?_⟩
  · rw [Build_content kf h]
    exact head_append _ _ _ (head_append _ _ _ (head_append _ _ _ rfl))
  · rw [Build_asset kf h]
    exact head_append _ _ _ (head_append _ _ _ (head_append _ _ _ rfl))
  · rw [Build_specification kf h]
    exact head_append _ _ _ (head_append _ _ _ (head_append _ _ _ rfl))

/-- C5: two KongFiles whose kinds are different members of CONTENT, ASSET, SPECIFICATION
are mapped by `Build` to different paths, whatever their spec.path and spec.name are. -/
theorem Build_path_disjoint (a b : KongFile)
    (ha : a.Spec.Kind = CONTENT ∨ a.Spec.Kind = ASSET ∨ a.Spec.Kind = SPECIFICATION)
    (hb : b.Spec.Kind = CONTENT ∨ b.Spec.Kind = ASSET ∨ b.Spec.Kind = SPECIFICATION)
    (hne : a.Spec.Kind ≠ b.Spec.Kind) : (Build a).Path ≠ (Build b).Path := by
  intro heq
  have hhead : ((Build a).Path.getD "").data.head? = ((Build b).Path.getD "").data.head? := by
    rw [heq]
  obtain ⟨ac, aa, as⟩ := Build_path_head a
  obtain ⟨bc, ba, bs⟩ := Build_path_head b
  rcases ha with ha | ha | ha <;> rcases hb with hb | hb | hb
  · exact hne (ha.trans hb.symm)
  · rw [ac ha, ba hb] at hhead
    exact absurd hhead (by decide)
  · rw [ac ha, bs hb] at hhead
    exact absurd hhead (by decide)
  · rw [aa ha, bc hb] at hhead
    exact absurd hhead (by decide)
  · exact hne (ha.trans hb.symm)
  · rw [aa ha, bs hb] at hhead
    exact absurd hhead (by decide)
  · rw [as ha, bc hb] at hhead
    exact absurd hhead (by decide)
  · rw [as ha, ba hb] at hhead
    exact absurd hhead (by decide)
  · exact hne (ha.trans hb.symm)

/-- Witness of C5: a CONTENT and a SPECIFICATION object. -/
theorem Build_path_disjoint_witness : (Build scenario1).Path ≠ (Build specFile).Path :=
  Build_path_disjoint scenario1 specFile (Or.inl rfl) (Or.inr (Or.inr rfl)) (by decide)

/-! ## Cache invariant -/

/-- The empty cache is well formed. -/
theorem NewCacheStores_WF : NewCacheStores.WF := by
  intro k v h
  simp [NewCacheStores, Store.empty] at h

/-- `Update` keeps the cache well formed. -/
theorem CacheStores.Update_WF (c : CacheStores) (obj : Object) (h : c.WF) :
    (c.Update obj).2.WF := by
  cases obj with
  | other gvk => exact h
  | kongFile kf =>
    intro k v hk
    simp only [CacheStores.Update, Store.Update] at hk
    by_cases hkey : k = keyFunc kf
    · simp [hkey] at hk
      rw [← hk, hkey]
    · simp [hkey] at hk
      exact h k v hk

/-- `Delete` keeps the cache well formed. -/
theorem CacheStores.Delete_WF (c : CacheStores) (obj : Object) (h : c.WF) :
    (c.Delete obj).2.WF := by
  cases obj with
  | other gvk => exact h
  | kongFile kf =>
    intro k v hk
    simp only [CacheStores.Delete, Store.Delete] at hk
    by_cases hkey : k = keyFunc kf
    · simp [hkey] at hk
    · simp [hkey] at hk
      exact h k v hk

/-- `UpdateObject` keeps the cache well formed. -/
theorem CachedProxyResolver.UpdateObject_WF {β : Type} (p : CachedProxyResolver β)
    (obj : Object) (h : p.store.WF) : (p.UpdateObject obj).2.store.WF := by
  cases obj with
  | other gvk => exact h
  | kongFile kf => exact CacheStores.Update_WF p.store (.kongFile kf) h

/-- `DeleteObject` keeps the cache well formed. -/
theorem CachedProxyResolver.DeleteObject_WF {β : Type} (p : CachedProxyResolver β)
    (obj : Object) (h : p.store.WF) : (p.DeleteObject obj).2.store.WF := by
  cases obj with
  | other gvk => exact h
  | kongFile kf => exact CacheStores.Delete_WF p.store (.kongFile kf) h

/-- `ObjectExists` does not touch the cache. -/
theorem CachedProxyResolver.ObjectExists_store {β : Type} (p : CachedProxyResolver β)
    (obj : Object) : (p.ObjectExists obj).2.store = p.store := by
  cases obj with
  | other gvk => rfl
  | kongFile kf =>
    simp only [CachedProxyResolver.ObjectExists]
    split <;> rfl

/-- `EnsureProxyDeleteObject` keeps the cache well formed. -/
theorem EnsureProxyDeleteObject_WF {β : Type} (p : CachedProxyResolver β) (obj : Object)
    (h : p.store.WF) : (EnsureProxyDeleteObject p obj).2.store.WF := by
  unfold EnsureProxyDeleteObject
  split
  · exact h
  · split
    · split
      · exact h
      · split
        · exact CachedProxyResolver.DeleteObject_WF p _ h
        · exact CachedProxyResolver.DeleteObject_WF p _ h
    · exact h

/-- `Reconcile` keeps the cache well formed: from the empty cache on, every entry sits
under its own key. -/
theorem KongFileReconciler.Reconcile_WF {β : Type} (r : KongFileReconciler) (now : Time)
    (req : NamespacedName) (p : CachedProxyResolver β) (h : p.store.WF) :
    (r.Reconcile now req p).2.store.WF := by
  unfold KongFileReconciler.Reconcile
  split
  · exact EnsureProxyDeleteObject_WF p _ h
  · exact h
  · rename_i obj _
    have hex : (p.ObjectExists (.kongFile obj)).2.store.WF := by
      rw [CachedProxyResolver.ObjectExists_store]
      exact h
    split_ifs
    · split
      · exact hex
      · split_ifs
        · split
          · exact CachedProxyResolver.DeleteObject_WF _ _ hex
          · exact CachedProxyResolver.DeleteObject_WF _ _ hex
        · exact hex
    · exact h
    · split
      · exact CachedProxyResolver.UpdateObject_WF p _ h
      · have hup := CachedProxyResolver.UpdateObject_WF p (.kongFile obj) h
        have hassign : ∀ k v,
            ((p.UpdateObject (.kongFile obj)).2.store.KongFiles.assign (keyFunc obj)
              { obj with Status := { Validated := true } }).items k = some v →
            keyFunc v = k := by
          intro k v hk
          simp only [Store.assign] at hk
          by_cases hkey : k = keyFunc obj
          · simp [hkey] at hk
            rw [← hk, hkey]
            rfl
          · simp [hkey] at hk
            exact hup k v hk
        simp only []
        split <;> exact hassign
    · exact h

/-! ## Proxy resolver -/

/-- C6: after `UpdateObject` on a KongFile the cache holds the object under
`namespace/name`, whatever the cache held before and whatever the backend call did, and
the error returned is the one `FileService.Update` returned on `Build obj`. -/
theorem UpdateObject_cache_and_error {β : Type} (p : CachedProxyResolver β) (obj : KongFile) :
    (p.UpdateObject (.kongFile obj)).2.store.KongFiles.items
        (obj.Namespace ++ "/" ++ obj.Name) = some obj ∧
    (p.UpdateObject (.kongFile obj)).2.ObjectExistsInCache (.kongFile obj) =
        (some (.kongFile obj), true, none) ∧
    (p.UpdateObject (.kongFile obj)).1 =
        (FileService.Update p.service (Build obj) p.backend).1.2 ∧
    (p.UpdateObject (.kongFile obj)).2.backend =
        (FileService.Update p.service (Build obj) p.backend).2 := by
  simp [CachedProxyResolver.UpdateObject, CachedProxyResolver.ObjectExistsInCache,
    CacheStores.Update, CacheStores.Get, Store.Update, Store.Get, keyFunc]

/-- C7: after `DeleteObject` on a KongFile the cache holds nothing under `namespace/name`
and the entries under every other key are as before, whatever the backend call did, and
the error returned is the one `FileService.Delete` returned on `Build obj`. -/
theorem DeleteObject_cache_and_error {β : Type} (p : CachedProxyResolver β) (obj : KongFile) :
    (p.DeleteObject (.kongFile obj)).2.store.KongFiles.items
        (obj.Namespace ++ "/" ++ obj.Name) = none ∧
    (∀ k, k ≠ obj.Namespace ++ "/" ++ obj.Name →
      (p.DeleteObject (.kongFile obj)).2.store.KongFiles.items k = p.store.KongFiles.items k) ∧
    (p.DeleteObject (.kongFile obj)).1 =
        (FileService.Delete p.service (Build obj) p.backend).1.2 ∧
    (p.DeleteObject (.kongFile obj)).2.backend =
        (FileService.Delete p.service (Build obj) p.backend).2 := by
  refine ⟨?_, fun k hk => ?_, rfl, rfl⟩
  · simp [CachedProxyResolver.DeleteObject, CacheStores.Delete, Store.Delete, keyFunc]
  · simp [CachedProxyResolver.DeleteObject, CacheStores.Delete, Store.Delete, keyFunc, hk]

/-- Witness of C7: deleting `specFile` leaves the cached `scenario1` in place. -/
theorem DeleteObject_cache_and_error_witness :
    (cachedResolver.DeleteObject (.kongFile specFile)).2.store.KongFiles.items "/a" =
      some scenario1 :=
  ((DeleteObject_cache_and_error cachedResolver specFile).2.1 "/a" (by decide)).trans
    (by decide)

/-- One PUT through `mapClient` leaves a backend on which the same PUT changes nothing. -/
theorem FileService.Update_mapClient_twice (re : String → String → Option File → Option Error)
    (file : File) (b : Backend FileMap) :
    (FileService.Update (mapClient re) file
        (FileService.Update (mapClient re) file b).2).2.state =
      (FileService.Update (mapClient re) file b).2.state ∧
    (FileService.Update (mapClient re) file (FileService.Update (mapClient re) file b).2).1 =
      (FileService.Update (mapClient re) file b).1 := by
  unfold FileService.Update
  by_cases hpath : isEmptyString file.Path = true
  · simp [hpath]
  · cases hre : re "PUT" ("/files/" ++ deref file.Path) (some file) with
    | some err => simp [hpath, Client.NewRequest, mapClient, hre]
    | none =>
      simp only [hpath, Client.NewRequest, mapClient, hre, Client.send]
      refine ⟨?_, ?_⟩
      · funext k
        by_cases hk : k = "/files/" ++ deref file.Path <;> simp [hk]
      · simp

/-- C8: in front of a backend that is a map from path to record updated by PUT-by-path,
a second `UpdateObject` of the same KongFile leaves the cache and the backend records as
the first one left them, and returns the same error. -/
theorem UpdateObject_idempotent (re : String → String → Option File → Option Error)
    (p : CachedProxyResolver FileMap) (obj : KongFile) (hs : p.service = mapClient re) :
    ((p.UpdateObject (.kongFile obj)).2.UpdateObject (.kongFile obj)).2.store.KongFiles.items =
        (p.UpdateObject (.kongFile obj)).2.store.KongFiles.items ∧
    ((p.UpdateObject (.kongFile obj)).2.UpdateObject (.kongFile obj)).2.backend.state =
        (p.UpdateObject (.kongFile obj)).2.backend.state ∧
    ((p.UpdateObject (.kongFile obj)).2.UpdateObject (.kongFile obj)).1 =
        (p.UpdateObject (.kongFile obj)).1 := by
  obtain ⟨h1, h2⟩ := FileService.Update_mapClient_twice re (Build obj) p.backend
  refine ⟨?_, ?_, ?_⟩
  · funext k
    simp only [CachedProxyResolver.UpdateObject, CacheStores.Update, Store.Update]
    by_cases hk : k = keyFunc obj <;> simp [hk]
  · simpa [CachedProxyResolver.UpdateObject, hs] using h1
  · simpa [CachedProxyResolver.UpdateObject, hs] using congrArg Prod.snd h2

/-- Witness of C8: updating `scenario1` twice on the example resolver; the backend then
holds the built record under `/files/content/p/a`. -/
theorem UpdateObject_idempotent_witness :
    ((cachedResolver.UpdateObject (.kongFile scenario1)).2.UpdateObject
        (.kongFile scenario1)).2.backend.state =
      (cachedResolver.UpdateObject (.kongFile scenario1)).2.backend.state ∧
    (cachedResolver.UpdateObject (.kongFile scenario1)).2.backend.state "/files/content/p/a" =
      some (Build scenario1) :=
  ⟨(UpdateObject_idempotent (fun _ _ _ => none) cachedResolver scenario1 rfl).2.1, by decide⟩

/-! ## Reconciliation protocol -/

/-- What `EnsureProxyDeleteObject` does on a KongFile the cache holds an entry for. -/
theorem EnsureProxyDeleteObject_cached {β : Type} (p : CachedProxyResolver β) (kf c : KongFile)
    (hc : p.store.KongFiles.items (keyFunc kf) = some c) :
    EnsureProxyDeleteObject p (.kongFile kf) =
      match (p.DeleteObject (.kongFile c)).1 with
      | some err => (({}, true, some err), (p.DeleteObject (.kongFile c)).2)
      | none => (({ Requeue := true }, true, none), (p.DeleteObject (.kongFile c)).2) := by
  simp [EnsureProxyDeleteObject, CachedProxyResolver.ObjectExistsInCache, CacheStores.Get,
    Store.Get, hc]

/-- What `EnsureProxyDeleteObject` does on a KongFile the cache holds no entry for. -/
theorem EnsureProxyDeleteObject_absent {β : Type} (p : CachedProxyResolver β) (kf : KongFile)
    (hc : p.store.KongFiles.items (keyFunc kf) = none) :
    EnsureProxyDeleteObject p (.kongFile kf) = (({}, false, none), p) := by
  simp [EnsureProxyDeleteObject, CachedProxyResolver.ObjectExistsInCache, CacheStores.Get,
    Store.Get, hc]

/-- What `EnsureProxyDeleteObject` does on an object that is not a KongFile. -/
theorem EnsureProxyDeleteObject_other {β : Type} (p : CachedProxyResolver β) (gvk : String) :
    EnsureProxyDeleteObject p (.other gvk) =
      (({}, false, some (.unsupportedCacheType gvk)), p) := by
  simp [EnsureProxyDeleteObject, CachedProxyResolver.ObjectExistsInCache, CacheStores.Get]

/-- C9 as stated fails: for an object that is not a KongFile (here a Pod) the object is not
in the cache, yet `EnsureProxyDeleteObject` returns the error of the cache lookup, not nil. -/
theorem EnsureProxyDeleteObject_counterexample :
    cachedResolver.cached (.other "/v1, Kind=Pod") = none ∧
      (EnsureProxyDeleteObject cachedResolver (.other "/v1, Kind=Pod")).1 =
        ({}, false, some (.unsupportedCacheType "/v1, Kind=Pod")) ∧
      (EnsureProxyDeleteObject cachedResolver (.other "/v1, Kind=Pod")).1.2.2 ≠ none := by
  refine ⟨rfl, ?_, ?_⟩ <;> simp [EnsureProxyDeleteObject_other]

/-- C9 (amended): `EnsureProxyDeleteObject` returns Requeue = true exactly when the cache
holds an entry for the object and `DeleteObject` on that entry returns no error; for a
KongFile without an entry it returns an empty result, exists = false and a nil error and
leaves the proxy untouched (no `DeleteObject` call); for an object that is not a KongFile
it returns the error of the cache lookup with an empty result and exists = false, also
without any call; when `DeleteObject` fails it returns that error with exists = true and
no requeue. -/
theorem EnsureProxyDeleteObject_spec {β : Type} (p : CachedProxyResolver β) (obj : Object) :
    ((EnsureProxyDeleteObject p obj).1.1.Requeue = true ↔
      ∃ c, p.cached obj = some c ∧ (p.DeleteObject (.kongFile c)).1 = none) ∧
    (∀ kf, obj = .kongFile kf → p.cached obj = none →
      EnsureProxyDeleteObject p obj = (({}, false, none), p)) ∧
    (∀ gvk, obj = .other gvk →
      EnsureProxyDeleteObject p obj = (({}, false, some (.unsupportedCacheType gvk)), p)) ∧
    (∀ c err, p.cached obj = some c → (p.DeleteObject (.kongFile c)).1 = some err →
      (EnsureProxyDeleteObject p obj).1 = ({}, true, some err) ∧
      (EnsureProxyDeleteObject p obj).2 = (p.DeleteObject (.kongFile c)).2) := by
  cases obj with
  | other gvk =>
    simp [EnsureProxyDeleteObject_other, CachedProxyResolver.cached]
  | kongFile kf =>
    cases hc : p.store.KongFiles.items (keyFunc kf) with
    | none =>
      simp [EnsureProxyDeleteObject_absent p kf hc, CachedProxyResolver.cached, hc]
    | some c =>
      rw [EnsureProxyDeleteObject_cached p kf c hc]
      cases hd : (p.DeleteObject (.kongFile c)).1 with
      | none =>
        simp only [CachedProxyResolver.cached, hc]
        refine ⟨by simp [hd], by simp, by simp, ?_⟩
        intro c1 err h1 h2
        cases h1
        rw [hd] at h2
        cases h2
      | some err =>
        simp only [CachedProxyResolver.cached, hc]
        refine ⟨by simp [hd], by simp, by simp, ?_⟩
        intro c1 err1 h1 h2
        cases h1
        rw [hd] at h2
        cases h2
        exact ⟨rfl, rfl⟩

/-- Witness of C9 (amended): an object with the name of `scenario1` is in the example
cache and the backend delete succeeds, so a requeue is requested; `specFile` is not in
the cache, so nothing happens. -/
theorem EnsureProxyDeleteObject_spec_witness :
    (EnsureProxyDeleteObject cachedResolver (.kongFile { Name := "a" })).1.1.Requeue = true ∧
      EnsureProxyDeleteObject cachedResolver (.kongFile specFile) =
        (({}, false, none), cachedResolver) :=
  ⟨(EnsureProxyDeleteObject_spec cachedResolver (.kongFile { Name := "a" })).1.mpr
      ⟨scenario1, by decide, by decide⟩,
    (EnsureProxyDeleteObject_spec cachedResolver (.kongFile specFile)).2.1 specFile rfl
      (by decide)⟩

/-- C10: for a key that the external store no longer holds while the cache still holds an
entry for it, and a backend `Delete` that succeeds on the record of that entry, the first
`Reconcile` pass calls `DeleteObject` on the entry and returns Requeue = true without
error; the next pass for the same key finds no entry, calls nothing, sends nothing, and
returns an empty result without error. -/
theorem Reconcile_absent_requeue_then_done {β : Type} (r : KongFileReconciler)
    (now later : Time) (req : NamespacedName) (p : CachedProxyResolver β) (c : KongFile)
    (hget : r.Get req = .notFound)
    (hwf : p.store.WF)
    (hc : p.store.KongFiles.items (req.Namespace ++ "/" ++ req.Name) = some c)
    (hdel : (FileService.Delete p.service (Build c) p.backend).1.2 = none) :
    (r.Reconcile now req p).1 = ({ Requeue := true }, none) ∧
    (r.Reconcile now req p).2.calls = p.calls ++ [.DeleteObject (.kongFile c)] ∧
    (r.Reconcile now req p).2.store.KongFiles.items (req.Namespace ++ "/" ++ req.Name) = none ∧
    (r.Reconcile later req (r.Reconcile now req p).2).1 = ({}, none) ∧
    (r.Reconcile later req (r.Reconcile now req p).2).2 = (r.Reconcile now req p).2 := by
  have hkey : keyFunc c = req.Namespace ++ "/" ++ req.Name := hwf _ _ hc
  have hk : keyFunc { Namespace := req.Namespace, Name := req.Name } =
      req.Namespace ++ "/" ++ req.Name := rfl
  have hd : (p.DeleteObject (.kongFile c)).1 = none := hdel
  have hfirst : EnsureProxyDeleteObject p (.kongFile { Namespace := req.Namespace, Name := req.Name }) =
      (({ Requeue := true }, true, none), (p.DeleteObject (.kongFile c)).2) := by
    rw [EnsureProxyDeleteObject_cached p _ c (by rw [hk]; exact hc), hd]
  have hgone : (p.DeleteObject (.kongFile c)).2.store.KongFiles.items
      (req.Namespace ++ "/" ++ req.Name) = none := by
    simp [CachedProxyResolver.DeleteObject, CacheStores.Delete, Store.Delete, hkey]
  have hsecond : EnsureProxyDeleteObject (p.DeleteObject (.kongFile c)).2
      (.kongFile { Namespace := req.Namespace, Name := req.Name }) =
      (({}, false, none), (p.DeleteObject (.kongFile c)).2) :=
    EnsureProxyDeleteObject_absent _ _ (by rw [hk]; exact hgone)
  have hrec : r.Reconcile now req p =
      (({ Requeue := true }, none), (p.DeleteObject (.kongFile c)).2) := by
    simp [KongFileReconciler.Reconcile, hget, hfirst]
  have hrec2 : r.Reconcile later req (p.DeleteObject (.kongFile c)).2 =
      (({}, none), (p.DeleteObject (.kongFile c)).2) := by
    simp [KongFileReconciler.Reconcile, hget, hsecond]
  rw [hrec]
  refine ⟨rfl, ?_, hgone, ?_, ?_⟩
  · simp [CachedProxyResolver.DeleteObject]
  · simp [hrec2]
  · simp [hrec2]

/-- Witness of C10: `scenario1` is cached, gone from the external store, and the backend
delete succeeds. -/
theorem Reconcile_absent_requeue_then_done_witness :
    (emptyReconciler.Reconcile 5 { Namespace := "", Name := "a" } cachedResolver).1 =
        ({ Requeue := true }, none) ∧
      (emptyReconciler.Reconcile 9 { Namespace := "", Name := "a" }
        (emptyReconciler.Reconcile 5 { Namespace := "", Name := "a" } cachedResolver).2).1 =
        ({}, none) :=
  have h := Reconcile_absent_requeue_then_done emptyReconciler 5 9
    { Namespace := "", Name := "a" } cachedResolver scenario1 rfl
    (CacheStores.Update_WF _ _ NewCacheStores_WF) (by decide) (by decide)
  ⟨h.1, h.2.2.2.1⟩

/-- The guard of the deletion branch of `Reconcile` is the pending-deletion condition. -/
theorem deletionElapsed_iff (obj : KongFile) (now : Time) :
    deletionElapsed now obj.DeletionTimestamp = true ↔ obj.PendingDeletion now := by
  unfold deletionElapsed KongFile.PendingDeletion
  cases obj.DeletionTimestamp with
  | none => simp
  | some t => simp

/-- With this resolver `ObjectExists` on a KongFile reports "present" or an error: the
service returns a record or an error, never neither. -/
theorem CachedProxyResolver.ObjectExists_present_or_error {β : Type}
    (p : CachedProxyResolver β) (obj : KongFile) :
    (p.ObjectExists (.kongFile obj)).1 ≠ (false, none) := by
  simp only [CachedProxyResolver.ObjectExists, FileService.Get]
  split_ifs
  · simp
  · cases hreq : p.service.NewRequest "GET" ("/files/" ++ deref (Build obj).Path) none with
    | error err => simp
    | ok req =>
      cases hsend : (p.service.send req p.backend).1 with
      | error err => simp [hsend]
      | ok file => simp [hsend]

/-- C11: for an object found in the external store whose deletion timestamp is set and
earlier than the current time, `Reconcile` is decided by `ObjectExists` and `DeleteObject`
alone, whatever the class annotation and status.validated are: an error of `ObjectExists`
is returned without requeue; if it reports "present", `DeleteObject` is called and the
result is Requeue = true when it succeeds and its error without requeue otherwise; if it
reports "absent", the result is empty and neither `DeleteObject` nor `UpdateObject` is
called. -/
theorem Reconcile_pending_deletion {β : Type} (r : KongFileReconciler) (now : Time)
    (req : NamespacedName) (p : CachedProxyResolver β) (obj : KongFile)
    (hget : r.Get req = .found obj) (hdel : obj.PendingDeletion now) :
    r.Reconcile now req p =
      (if (p.ObjectExists (.kongFile obj)).1.2 ≠ none then
        (({}, (p.ObjectExists (.kongFile obj)).1.2), (p.ObjectExists (.kongFile obj)).2)
      else if (p.ObjectExists (.kongFile obj)).1.1 = true then
        (({ Requeue := ((p.ObjectExists (.kongFile obj)).2.DeleteObject (.kongFile obj)).1.isNone },
          ((p.ObjectExists (.kongFile obj)).2.DeleteObject (.kongFile obj)).1),
         ((p.ObjectExists (.kongFile obj)).2.DeleteObject (.kongFile obj)).2)
      else (({}, none), (p.ObjectExists (.kongFile obj)).2)) ∧
    (r.Reconcile now req p).2.calls =
      (if (p.ObjectExists (.kongFile obj)).1 = (true, none) then
        p.calls ++ [.DeleteObject (.kongFile obj)]
      else p.calls) := by
  have hel : deletionElapsed now obj.DeletionTimestamp = true := (deletionElapsed_iff obj now).2 hdel
  have hcalls : (p.ObjectExists (.kongFile obj)).2.calls = p.calls := by
    simp only [CachedProxyResolver.ObjectExists]
    split <;> rfl
  have hdcalls : ((p.ObjectExists (.kongFile obj)).2.DeleteObject (.kongFile obj)).2.calls =
      p.calls ++ [.DeleteObject (.kongFile obj)] := by
    simp [CachedProxyResolver.DeleteObject, hcalls]
  simp only [KongFileReconciler.Reconcile, hget, hel, if_true]
  rcases hex : (p.ObjectExists (.kongFile obj)).1 with ⟨present, err⟩
  cases err with
  | some err => simp [hcalls]
  | none =>
    cases present with
    | false => simp [hcalls]
    | true =>
      cases hd : ((p.ObjectExists (.kongFile obj)).2.DeleteObject (.kongFile obj)).1 with
      | none => simp [hd, hdcalls]
      | some err => simp [hd, hdcalls]

/-- Witness of C11: `deletingFile` is in the backend, so it is deleted and a requeue is
requested, at a time after its deletion timestamp. -/
theorem Reconcile_pending_deletion_witness :
    ((foundReconciler deletingFile).Reconcile 5 scenarioName syncedResolver).1 =
      ({ Requeue := true }, none) :=
  (congrArg Prod.fst (Reconcile_pending_deletion (foundReconciler deletingFile) 5 scenarioName
    syncedResolver deletingFile rfl ⟨3, rfl, by decide, by decide⟩).1).trans (by decide)

/-- What `Reconcile` does on an object that is found, not pending deletion, in class and
not yet validated. -/
theorem Reconcile_update_branch {β : Type} (r : KongFileReconciler) (now : Time)
    (req : NamespacedName) (p : CachedProxyResolver β) (obj : KongFile)
    (hget : r.Get req = .found obj) (hdel : ¬ obj.PendingDeletion now)
    (hclass : MatchesControllerClassName obj r.ControllerClassName = true)
    (hv : obj.Status.Validated = false) :
    r.Reconcile now req p =
      match (p.UpdateObject (.kongFile obj)).1 with
      | some err => (({}, some err), (p.UpdateObject (.kongFile obj)).2)
      | none =>
        (({}, r.StatusUpdate obj.validated),
         (p.UpdateObject (.kongFile obj)).2.statusWritten obj) := by
  have hel : deletionElapsed now obj.DeletionTimestamp = false := by
    cases h : deletionElapsed now obj.DeletionTimestamp with
    | false => rfl
    | true => exact absurd ((deletionElapsed_iff obj now).1 h) hdel
  simp only [KongFileReconciler.Reconcile, hget, hel, hclass, hv,
    CachedProxyResolver.statusWritten, KongFile.validated]
  cases hu : (p.UpdateObject (.kongFile obj)).1 with
  | some err => simp
  | none =>
    cases hs : r.StatusUpdate { obj with Status := { Validated := true } } with
    | none => simp [hs]
    | some err => simp [hs]

/-- What `Reconcile` does on an object that is found, not pending deletion, and out of
class or already validated: nothing. -/
theorem Reconcile_skip_branch {β : Type} (r : KongFileReconciler) (now : Time)
    (req : NamespacedName) (p : CachedProxyResolver β) (obj : KongFile)
    (hget : r.Get req = .found obj) (hdel : ¬ obj.PendingDeletion now)
    (h : MatchesControllerClassName obj r.ControllerClassName = false ∨
      obj.Status.Validated = true) :
    r.Reconcile now req p = (({}, none), p) := by
  have hel : deletionElapsed now obj.DeletionTimestamp = false := by
    cases h : deletionElapsed now obj.DeletionTimestamp with
    | false => rfl
    | true => exact absurd ((deletionElapsed_iff obj now).1 h) hdel
  simp only [KongFileReconciler.Reconcile, hget, hel]
  rcases h with h | h
  · simp [h]
  · cases hm : MatchesControllerClassName obj r.ControllerClassName <;> simp [h]

/-- The class check of `Reconcile` holds exactly when the annotation is present with the
configured class as its value. -/
theorem MatchesControllerClassName_iff (obj : KongFile) (cls : String) :
    MatchesControllerClassName obj cls = true ↔
      obj.Annotations.lookup ControllerClassKey = some cls := by
  unfold MatchesControllerClassName HasAnnotation
  cases obj.Annotations.lookup ControllerClassKey with
  | none => simp
  | some v => simp

/-- C12 as stated fails: `scenario1` carries no controller-class annotation, is not pending
deletion and not validated, yet `Reconcile` skips it: no `UpdateObject` call is made; the
same holds for an annotation with an empty value. -/
theorem Reconcile_class_filter_counterexample :
    scenario1.Annotations.lookup ControllerClassKey = none ∧
      scenario1.DeletionTimestamp = none ∧ scenario1.Status.Validated = false ∧
      ((foundReconciler scenario1).Reconcile 5 scenarioName cachedResolver).1 = ({}, none) ∧
      ((foundReconciler scenario1).Reconcile 5 scenarioName cachedResolver).2.calls = [] ∧
      ((foundReconciler { scenario1 with Annotations := [(ControllerClassKey, "")] }).Reconcile
        5 scenarioName cachedResolver).2.calls = [] := by
  refine ⟨by decide, rfl, rfl, by decide, by decide, by decide⟩

/-- C12 (amended): for an object found in the external store, not pending deletion and
with status.validated = false, `Reconcile` proceeds to `UpdateObject` when the object
carries the controller-class annotation with the configured class as its value, and skips
the object (empty result, nothing called) when the annotation is missing or has any other
value. -/
theorem Reconcile_class_filter {β : Type} (r : KongFileReconciler) (now : Time)
    (req : NamespacedName) (p : CachedProxyResolver β) (obj : KongFile)
    (hget : r.Get req = .found obj) (hdel : ¬ obj.PendingDeletion now)
    (hv : obj.Status.Validated = false) :
    (obj.Annotations.lookup ControllerClassKey = some r.ControllerClassName →
      ∃ rest, (r.Reconcile now req p).2.calls =
        p.calls ++ Call.UpdateObject (.kongFile obj) :: rest) ∧
    (obj.Annotations.lookup ControllerClassKey ≠ some r.ControllerClassName →
      r.Reconcile now req p = (({}, none), p)) := by
  refine ⟨fun h => ?_, fun h => ?_⟩
  · have hclass := (MatchesControllerClassName_iff obj r.ControllerClassName).2 h
    rw [Reconcile_update_branch r now req p obj hget hdel hclass hv]
    cases hu : (p.UpdateObject (.kongFile obj)).1 with
    | some err => exact ⟨[], by simp [CachedProxyResolver.UpdateObject]⟩
    | none =>
      exact ⟨[.StatusUpdate obj.validated],
        by simp [CachedProxyResolver.UpdateObject, CachedProxyResolver.statusWritten]⟩
  · apply Reconcile_skip_branch r now req p obj hget hdel
    left
    cases hm : MatchesControllerClassName obj r.ControllerClassName with
    | false => rfl
    | true => exact absurd ((MatchesControllerClassName_iff obj r.ControllerClassName).1 hm) h

/-- Witness of C12 (amended): `classedFile` carries the class `kong` and is pushed;
`scenario1` carries no annotation and is skipped. -/
theorem Reconcile_class_filter_witness :
    (∃ rest, ((foundReconciler classedFile).Reconcile 5 scenarioName cachedResolver).2.calls =
        cachedResolver.calls ++ Call.UpdateObject (.kongFile classedFile) :: rest) ∧
      (foundReconciler scenario1).Reconcile 5 scenarioName cachedResolver =
        (({}, none), cachedResolver) :=
  ⟨(Reconcile_class_filter (foundReconciler classedFile) 5 scenarioName cachedResolver
      classedFile rfl (by simp [KongFile.PendingDeletion, classedFile, scenario1]) rfl).1
      (by decide),
    (Reconcile_class_filter (foundReconciler scenario1) 5 scenarioName cachedResolver
      scenario1 rfl (by simp [KongFile.PendingDeletion, scenario1]) rfl).2 (by decide)⟩

/-- C13 as stated fails: `scenario1` carries no controller-class annotation, so it is in
class under the exact-or-empty matching of the specification (and of
`ControllerClassValidator` in this repository); it is not pending deletion and not
validated, yet `Reconcile` calls `UpdateObject` not once but never, and writes no status. -/
theorem Reconcile_update_unannotated_counterexample :
    ControllerClassValidator (foundReconciler scenario1).ControllerClassName
        scenario1.Annotations ExactOrEmptyClassMatch = .ok true ∧
      scenario1.DeletionTimestamp = none ∧ scenario1.Status.Validated = false ∧
      ((foundReconciler scenario1).Reconcile 5 scenarioName freshResolver).1 = ({}, none) ∧
      ((foundReconciler scenario1).Reconcile 5 scenarioName freshResolver).2.calls = [] ∧
      ((foundReconciler scenario1).Reconcile 5 scenarioName freshResolver).2.backend.requests =
        [] := by
  refine ⟨rfl, rfl, rfl, by decide, by decide, by decide⟩

/-- C13 (amended): for an object that carries the controller-class annotation with the
configured class as its value, is not pending deletion and has status.validated = false,
`Reconcile` calls `UpdateObject` once; if that fails it returns the error and writes no
status; if it succeeds it writes the status with validated = true and returns the error of
that write, nil if there is none; it never asks for a requeue. -/
theorem Reconcile_update_then_status {β : Type} (r : KongFileReconciler) (now : Time)
    (req : NamespacedName) (p : CachedProxyResolver β) (obj : KongFile)
    (hget : r.Get req = .found obj) (hdel : ¬ obj.PendingDeletion now)
    (hann : obj.Annotations.lookup ControllerClassKey = some r.ControllerClassName)
    (hv : obj.Status.Validated = false) :
    (∀ err, (p.UpdateObject (.kongFile obj)).1 = some err →
      (r.Reconcile now req p).1 = ({}, some err) ∧
      (r.Reconcile now req p).2 = (p.UpdateObject (.kongFile obj)).2 ∧
      (r.Reconcile now req p).2.calls = p.calls ++ [.UpdateObject (.kongFile obj)]) ∧
    ((p.UpdateObject (.kongFile obj)).1 = none →
      (r.Reconcile now req p).1 = ({}, r.StatusUpdate obj.validated) ∧
      obj.validated.Status.Validated = true ∧
      (r.Reconcile now req p).2.calls =
        p.calls ++ [.UpdateObject (.kongFile obj), .StatusUpdate obj.validated] ∧
      (r.Reconcile now req p).2.backend = (p.UpdateObject (.kongFile obj)).2.backend) ∧
    (r.Reconcile now req p).1.1 = {} := by
  have hclass : MatchesControllerClassName obj r.ControllerClassName = true :=
    (MatchesControllerClassName_iff obj r.ControllerClassName).2 hann
  rw [Reconcile_update_branch r now req p obj hget hdel hclass hv]
  cases hu : (p.UpdateObject (.kongFile obj)).1 with
  | some err =>
    refine ⟨fun e he => ?_, fun h => (by cases h), rfl⟩
    cases he
    exact ⟨rfl, rfl, by simp [CachedProxyResolver.UpdateObject]⟩
  | none =>
    refine ⟨fun e he => (by cases he), fun _ => ⟨rfl, rfl, ?_, rfl⟩, rfl⟩
    simp [CachedProxyResolver.UpdateObject, CachedProxyResolver.statusWritten]

/-- Witness of C13 (amended): `classedFile` carries the class `kong`; it is pushed to the
backend and its status written. -/
theorem Reconcile_update_then_status_witness :
    ((foundReconciler classedFile).Reconcile 5 scenarioName cachedResolver).1 = ({}, none) ∧
      ((foundReconciler classedFile).Reconcile 5 scenarioName cachedResolver).2.calls =
        [.UpdateObject (.kongFile classedFile), .StatusUpdate classedFile.validated] :=
  have h := (Reconcile_update_then_status (foundReconciler classedFile) 5 scenarioName
    cachedResolver classedFile rfl (by simp [KongFile.PendingDeletion, classedFile, scenario1])
    (by decide) rfl).2.1 (by decide)
  ⟨h.1, h.2.2.1⟩

/-- C14: for an object found in the external store and not pending deletion that is out of
class or already has status.validated = true, `Reconcile` returns an empty result and a nil
error and leaves the proxy as it was: nothing is called, and the cache and the backend are
unchanged. -/
theorem Reconcile_out_of_class_or_validated {β : Type} (r : KongFileReconciler) (now : Time)
    (req : NamespacedName) (p : CachedProxyResolver β) (obj : KongFile)
    (hget : r.Get req = .found obj) (hdel : ¬ obj.PendingDeletion now)
    (h : MatchesControllerClassName obj r.ControllerClassName = false ∨
      obj.Status.Validated = true) :
    (r.Reconcile now req p).1 = ({}, none) ∧
    (r.Reconcile now req p).2 = p ∧
    (r.Reconcile now req p).2.calls = p.calls ∧
    (r.Reconcile now req p).2.store.KongFiles.items = p.store.KongFiles.items ∧
    (r.Reconcile now req p).2.backend.state = p.backend.state ∧
    (r.Reconcile now req p).2.backend.requests = p.backend.requests := by
  rw [Reconcile_skip_branch r now req p obj hget hdel h]
  exact ⟨rfl, rfl, rfl, rfl, rfl, rfl⟩

/-- Witness of C14: `classedFile` once validated is left alone. -/
theorem Reconcile_out_of_class_or_validated_witness :
    ((foundReconciler classedFile.validated).Reconcile 5 scenarioName syncedResolver).1 =
        ({}, none) ∧
      ((foundReconciler classedFile.validated).Reconcile 5 scenarioName syncedResolver).2 =
        syncedResolver :=
  have h := Reconcile_out_of_class_or_validated (foundReconciler classedFile.validated) 5
    scenarioName syncedResolver classedFile.validated rfl
    (by simp [KongFile.PendingDeletion, KongFile.validated, classedFile, scenario1])
    (Or.inr rfl)
  ⟨h.1, h.2.1⟩

/-- C15: `ObjectExists` on a KongFile returns (true, nil) exactly when `FileService.Get` on
`Build obj` returns a record without error, and (false, err) when it returns the error
`err`; the cache plays no part: with any other cache the result and the backend afterwards
are the same, and the cache is left as it was. -/
theorem ObjectExists_spec {β : Type} (p : CachedProxyResolver β) (obj : KongFile) :
    ((p.ObjectExists (.kongFile obj)).1 = (true, none) ↔
      ∃ record, (FileService.Get p.service (Build obj) p.backend).1 = (some record, none)) ∧
    (∀ err, (FileService.Get p.service (Build obj) p.backend).1.2 = some err →
      (p.ObjectExists (.kongFile obj)).1 = (false, some err)) ∧
    (∀ store : CacheStores,
      ({ p with store := store }.ObjectExists (.kongFile obj)).1 =
        (p.ObjectExists (.kongFile obj)).1 ∧
      ({ p with store := store }.ObjectExists (.kongFile obj)).2.backend =
        (p.ObjectExists (.kongFile obj)).2.backend ∧
      ({ p with store := store }.ObjectExists (.kongFile obj)).2.store = store) ∧
    (p.ObjectExists (.kongFile obj)).2.store = p.store ∧
    (p.ObjectExists (.kongFile obj)).2.backend =
      (FileService.Get p.service (Build obj) p.backend).2 := by
  simp only [CachedProxyResolver.ObjectExists]
  rcases hg : (FileService.Get p.service (Build obj) p.backend).1 with ⟨record, err⟩
  cases err with
  | some err => simp
  | none =>
    cases record with
    | none => simp
    | some record => simp

/-- Witness of C15: the record of `scenario1` is in the backend of `syncedResolver`, and
an error of the service is passed on. -/
theorem ObjectExists_spec_witness :
    (syncedResolver.ObjectExists (.kongFile scenario1)).1 = (true, none) ∧
      (cachedResolver.ObjectExists (.kongFile scenario1)).1 =
        (false, some (.backend "not found")) :=
  ⟨(ObjectExists_spec syncedResolver scenario1).1.mpr ⟨Build scenario1, by decide⟩,
    (ObjectExists_spec cachedResolver scenario1).2.1 (.backend "not found") (by decide)⟩

/-! ## Readiness and initialization -/

/-- `IsReady` reads the flag in mode `off` only; in every other mode it is true. -/
theorem CachedProxyResolver.IsReady_eq {β : Type} (p : CachedProxyResolver β) :
    (p.dbmode = "off" → p.IsReady = p.configApplied) ∧ (p.dbmode ≠ "off" → p.IsReady = true) := by
  unfold CachedProxyResolver.IsReady
  exact ⟨fun h => by simp [h], fun h => by simp [h]⟩

/-- No operation of the resolver writes the `configApplied` flag. -/
theorem CachedProxyResolver.configApplied_unchanged {β : Type} (p : CachedProxyResolver β)
    (obj : Object) :
    (p.UpdateObject obj).2.configApplied = p.configApplied ∧
    (p.DeleteObject obj).2.configApplied = p.configApplied ∧
    (p.ObjectExists obj).2.configApplied = p.configApplied := by
  cases obj with
  | other gvk => exact ⟨rfl, rfl, rfl⟩
  | kongFile kf =>
    refine ⟨rfl, rfl, ?_⟩
    simp only [CachedProxyResolver.ObjectExists]
    split <;> rfl

/-- C16 fails on the code for the in-memory mode "": the resolver initialises with
`InMemory = true`, its `configApplied` flag is false and no `UpdateObject` was called, yet
`IsReady` returns true; in mode `off` it returns the flag, and in mode `postgres` true. -/
theorem IsReady_empty_mode_ignores_flag :
    ( CachedProxyResolver.initialize freshResolver parseOk (.ok emptyModeRoot)).1 = none ∧
      emptyModeResolver.InMemory = true ∧ emptyModeResolver.dbmode = "" ∧
      emptyModeResolver.configApplied = false ∧ emptyModeResolver.calls = [] ∧
      emptyModeResolver.IsReady = true ∧
      offResolver.InMemory = true ∧ offResolver.IsReady = offResolver.configApplied ∧
      ( CachedProxyResolver.initialize freshResolver parseOk (.ok postgresRoot)).2.IsReady = true := by
  decide

/-- C17 fails on the code: in mode `off` an `UpdateObject` that returns without error
leaves `configApplied` false, so `IsReady` stays false. -/
theorem configApplied_never_set :
    offResolver.dbmode = "off" ∧ offResolver.configApplied = false ∧
      (offResolver.UpdateObject (.kongFile scenario1)).1 = none ∧
      (offResolver.UpdateObject (.kongFile scenario1)).2.configApplied = false ∧
      (offResolver.UpdateObject (.kongFile scenario1)).2.IsReady = false := by
  decide

/-- C18: for a root response with a configuration map and a parseable version,
`NewCacheBasedProxyWithStagger` yields a resolver in in-memory mode when the database
entry is "" or "off" and one in durable mode when it is "postgres", and fails for every
other string; it fails as well when the database entry is not a string or the
configuration map is missing; whenever it fails it returns no resolver. -/
theorem NewCacheBasedProxyWithStagger_modes {β : Type} (store : CacheStores)
    (service : Client β) (backend : Backend β) (parseVersion : Root → Except Error Version)
    (root : Root) :
    (∀ cfg v db, root.lookup "configuration" = some (.map cfg) → parseVersion root = .ok v →
      cfg.lookup "database" = some (.str db) →
      ((db = "" ∨ db = "off") →
        ∃ p, NewCacheBasedProxyWithStagger store service backend parseVersion (.ok root) =
            (some p, none) ∧ p.InMemory = true ∧ p.dbmode = db ∧ p.version = v ∧
          p.configApplied = false) ∧
      (db = "postgres" →
        ∃ p, NewCacheBasedProxyWithStagger store service backend parseVersion (.ok root) =
            (some p, none) ∧ p.InMemory = false ∧ p.dbmode = db ∧ p.version = v) ∧
      (db ≠ "" → db ≠ "off" → db ≠ "postgres" →
        ∃ err, NewCacheBasedProxyWithStagger store service backend parseVersion (.ok root) =
          (none, some err))) ∧
    (∀ cfg, root.lookup "configuration" = some (.map cfg) →
      (∀ db, cfg.lookup "database" ≠ some (.str db)) →
      ∃ err, NewCacheBasedProxyWithStagger store service backend parseVersion (.ok root) =
        (none, some err)) ∧
    ((∀ cfg, root.lookup "configuration" ≠ some (.map cfg)) →
      ∃ err, NewCacheBasedProxyWithStagger store service backend parseVersion (.ok root) =
        (none, some err)) ∧
    (∀ rootResult,
      (NewCacheBasedProxyWithStagger store service backend parseVersion rootResult).2 ≠ none →
      (NewCacheBasedProxyWithStagger store service backend parseVersion rootResult).1 = none) := by
  refine ⟨fun cfg v db hcfg hv hdb => ⟨fun h => ?_, fun h => ?_, fun h1 h2 h3 => ?_⟩,
    fun cfg hcfg hdb => ?_, fun hcfg => ?_, fun rootResult h => ?_⟩
  · have hor : db = "off" ∨ db = "" := h.symm
    simp [NewCacheBasedProxyWithStagger, CachedProxyResolver.initialize, hcfg, hv, hdb, hor]
  · subst h
    simp [NewCacheBasedProxyWithStagger, CachedProxyResolver.initialize, hcfg, hv, hdb]
  · simp [NewCacheBasedProxyWithStagger, CachedProxyResolver.initialize, hcfg, hdb, h1, h2, h3]
  · simp only [NewCacheBasedProxyWithStagger, CachedProxyResolver.initialize, hcfg]
    cases hl : cfg.lookup "database" with
    | none => simp
    | some val =>
      cases val with
      | str db => exact absurd hl (hdb db)
      | other => simp
  · simp only [NewCacheBasedProxyWithStagger, CachedProxyResolver.initialize]
    cases hl : root.lookup "configuration" with
    | none => simp
    | some val =>
      cases val with
      | map cfg => exact absurd hl (hcfg cfg)
      | str s => simp
      | other => simp
  · simp only [NewCacheBasedProxyWithStagger] at h ⊢
    split at h
    · simp
    · simp at h

/-- Witness of C18: the three accepted modes, and a rejected one. -/
theorem NewCacheBasedProxyWithStagger_modes_witness :
    (∃ p, NewCacheBasedProxyWithStagger NewCacheStores plainClient emptyBackend parseOk
        (.ok offRoot) = (some p, none) ∧ p.InMemory = true ∧ p.dbmode = "off" ∧
        p.version = { Major := 2, Minor := 8, Patch := 0 } ∧ p.configApplied = false) ∧
      (∃ p, NewCacheBasedProxyWithStagger NewCacheStores plainClient emptyBackend parseOk
        (.ok postgresRoot) = (some p, none) ∧ p.InMemory = false ∧ p.dbmode = "postgres" ∧
        p.version = { Major := 2, Minor := 8, Patch := 0 }) ∧
      (∃ err, NewCacheBasedProxyWithStagger NewCacheStores plainClient emptyBackend parseOk
        (.ok [("configuration", .map [("database", .str "cassandra")])]) = (none, some err)) :=
  ⟨((NewCacheBasedProxyWithStagger_modes NewCacheStores plainClient emptyBackend parseOk
      offRoot).1 [("database", .str "off")] { Major := 2, Minor := 8, Patch := 0 } "off"
      rfl rfl rfl).1 (Or.inr rfl),
    ((NewCacheBasedProxyWithStagger_modes NewCacheStores plainClient emptyBackend parseOk
      postgresRoot).1 [("database", .str "postgres")] { Major := 2, Minor := 8, Patch := 0 }
      "postgres" rfl rfl rfl).2.1 rfl,
    ((NewCacheBasedProxyWithStagger_modes NewCacheStores plainClient emptyBackend parseOk
      [("configuration", .map [("database", .str "cassandra")])]).1
      [("database", .str "cassandra")] { Major := 2, Minor := 8, Patch := 0 } "cassandra"
      rfl rfl rfl).2.2 (by decide) (by decide) (by decide)⟩

/-! ## Backend client -/

/-- A string of white space only trims to the empty string. -/
theorem TrimSpace_blank (s : String) (h : ∀ ch ∈ s.data, isSpace ch = true) :
    TrimSpace s = "" := by
  have hdrop : s.data.dropWhile isSpace = [] := List.dropWhile_eq_nil_iff.2 h
  simp [TrimSpace, hdrop]

/-- A record without a path, or with a path of white space only, is an empty string for
the guard of the service. -/
theorem isEmptyString_blank (path : Option String)
    (h : path = none ∨ ∃ s, path = some s ∧ ∀ ch ∈ s.data, isSpace ch = true) :
    isEmptyString path = true := by
  rcases h with h | ⟨s, hs, hall⟩
  · rw [h]
    rfl
  · rw [hs]
    simp [isEmptyString, TrimSpace_blank s hall]

/-- C19: on a record whose path is missing, empty or white space only, `FileService.Get`,
`FileService.Delete` and `FileService.Update` return an error and leave the backend as it
was, no request being sent; `ObjectExists` on an object whose mapped path is empty returns
that error of `Get` and leaves the proxy and its backend as they were. -/
theorem FileService_blank_path {β : Type} (c : Client β) (b : Backend β) :
    (∀ file : File,
      (file.Path = none ∨ ∃ s, file.Path = some s ∧ ∀ ch ∈ s.data, isSpace ch = true) →
      FileService.Get c file b =
        ((none, some (.text "Path cannot be nil for Get operation")), b) ∧
      FileService.Delete c file b =
        ((some file, some (.text "Path cannot be nil for Delete operation")), b) ∧
      FileService.Update c file b =
        ((none, some (.text "Path cannot be nil for Update operation")), b)) ∧
    (∀ (p : CachedProxyResolver β) (obj : KongFile), (Build obj).Path = some "" →
      p.ObjectExists (.kongFile obj) =
        ((false, some (.text "Path cannot be nil for Get operation")), p) ∧
      (p.ObjectExists (.kongFile obj)).2.backend.requests = p.backend.requests) := by
  refine ⟨fun file h => ?_, fun p obj h => ?_⟩
  · have hempty := isEmptyString_blank file.Path h
    simp [FileService.Get, FileService.Delete, FileService.Update, hempty]
  · have hempty : isEmptyString (Build obj).Path = true :=
      isEmptyString_blank _ (Or.inr ⟨"", h, by simp⟩)
    simp [CachedProxyResolver.ObjectExists, FileService.Get, hempty]

/-- Witness of C19: a path of a blank and a tab, and the object without kind, whose mapped
path is empty. -/
theorem FileService_blank_path_witness :
    FileService.Get plainClient { Path := some " \t" } emptyBackend =
        ((none, some (.text "Path cannot be nil for Get operation")), emptyBackend) ∧
      cachedResolver.ObjectExists (.kongFile kindlessFile) =
        ((false, some (.text "Path cannot be nil for Get operation")), cachedResolver) :=
  ⟨((FileService_blank_path plainClient emptyBackend).1 { Path := some " \t" }
      (Or.inr ⟨" \t", rfl, by decide⟩)).1,
    ((FileService_blank_path plainClient emptyBackend).2 cachedResolver kindlessFile
      (by decide)).1⟩

/-- On a record whose path is not blank `FileService.Create` and `FileService.Update` send
the same request and return the same. -/
theorem FileService.Create_eq_Update {β : Type} (c : Client β) (file : File) (b : Backend β)
    (h : isEmptyString file.Path = false) :
    FileService.Create c file b = FileService.Update c file b := by
  cases hp : file.Path with
  | none => simp [hp, isEmptyString] at h
  | some path =>
    rw [hp] at h
    simp [FileService.Create, FileService.Update, hp, h, deref]

/-- C20 fails on the code for a record with an empty path: `FileService.Update` returns an
error and sends nothing, `FileService.Create` sends `PUT /files/` with the record and
returns the answer; on a record without path `Create` dereferences nil. -/
theorem Create_Update_differ_on_empty_path :
    (FileService.Update plainClient emptyPathFile emptyBackend).1 =
        (none, some (.text "Path cannot be nil for Update operation")) ∧
      (FileService.Update plainClient emptyPathFile emptyBackend).2.requests = [] ∧
      (FileService.Create plainClient emptyPathFile emptyBackend).1 =
        (some emptyPathFile, none) ∧
      (FileService.Create plainClient emptyPathFile emptyBackend).2.requests =
        [{ Method := "PUT", Endpoint := "/files/", Body := some emptyPathFile }] ∧
      (FileService.Create plainClient {} emptyBackend).1 =
        (none, some (.panic "nil pointer dereference")) ∧
      (FileService.Update plainClient {} emptyBackend).1 =
        (none, some (.text "Path cannot be nil for Update operation")) := by
  decide

/-- `FileService.Get` returns a record or an error, never neither. -/
theorem FileService.Get_record_or_error {β : Type} (c : Client β) (file : File)
    (b : Backend β) : (FileService.Get c file b).1 ≠ (none, none) := by
  simp only [FileService.Get]
  split_ifs
  · simp
  · cases hreq : c.NewRequest "GET" ("/files/" ++ deref file.Path) none with
    | error err => simp
    | ok req =>
      cases hsend : (c.send req b).1 with
      | error err => simp [hsend]
      | ok record => simp [hsend]

/-- C21 fails on the code: for the record of `scenario1`, whose path is not empty, and a
backend that holds no record and reports not-found, `FileService.Get` sends the GET and
returns the error of the client, not a nil error; when the backend holds the record, `Get`
returns it. -/
theorem Get_not_found_is_error :
    (Build scenario1).Path = some "content/p/a" ∧
      (FileService.Get plainClient (Build scenario1) emptyBackend).1 =
        (none, some (.backend "not found")) ∧
      (FileService.Get plainClient (Build scenario1) emptyBackend).2.requests =
        [{ Method := "GET", Endpoint := "/files/content/p/a", Body := none }] ∧
      (FileService.Get plainClient (Build scenario1) emptyBackend).1 ≠ (none, none) ∧
      (FileService.Get plainClient (Build scenario1) syncedResolver.backend).1 =
        (some (Build scenario1), none) := by
  decide

/-- C22: for an object that is not a KongFile, `UpdateObject`, `DeleteObject`,
`ObjectExists` and `ObjectExistsInCache` of the resolver and `Add`, `Update` and `Delete`
of the cache store each return an error, and the cache store and the backend (its state
and the requests sent to it) are left as they were. -/
theorem unsupported_kind_rejected {β : Type} (p : CachedProxyResolver β) (gvk : String) :
    ((p.UpdateObject (.other gvk)).1 = some (.unsupportedAdd gvk) ∧
      (p.UpdateObject (.other gvk)).2.store = p.store ∧
      (p.UpdateObject (.other gvk)).2.backend = p.backend) ∧
    ((p.DeleteObject (.other gvk)).1 = some (.unsupportedAdd gvk) ∧
      (p.DeleteObject (.other gvk)).2.store = p.store ∧
      (p.DeleteObject (.other gvk)).2.backend = p.backend) ∧
    p.ObjectExists (.other gvk) = ((false, some (.unsupportedAdd gvk)), p) ∧
    p.ObjectExistsInCache (.other gvk) = (none, false, some (.unsupportedCacheType gvk)) ∧
    p.store.Add (.other gvk) = (some (.unsupportedAdd gvk), p.store) ∧
    p.store.Update (.other gvk) = (some (.unsupportedAdd gvk), p.store) ∧
    p.store.Delete (.other gvk) = (some (.unsupportedDelete gvk), p.store) :=
  ⟨⟨rfl, rfl, rfl⟩, ⟨rfl, rfl, rfl⟩, rfl, rfl, rfl, rfl, rfl⟩

/-! ## Admission gateway -/

/-- C23: for a request about the kongfiles resource whose object decodes, an error of the
Validator ends `handleValidation` with that error and no response; otherwise the response
carries the UID of the request, the Validator's verdict as `Allowed` and its reason as the
status message, with status code 400 exactly when the object is denied and 0 when it is
allowed. -/
theorem handleValidation_decision (a : RequestHandler) (E : Codecs) (request : AdmissionRequest)
    (plugin : KongFile) (hres : request.Resource = kongFileGVResource E)
    (hdec : E.Decode request.Raw = .ok plugin) :
    (∀ err, (a.Validator plugin).2.2 = some err →
      a.handleValidation E request = (none, some err)) ∧
    ((a.Validator plugin).2.2 = none →
      ∃ response status, a.handleValidation E request = (some response, none) ∧
        response.UID = request.UID ∧
        response.Allowed = (a.Validator plugin).1 ∧
        response.Result = some status ∧
        status.Message = (a.Validator plugin).2.1 ∧
        (status.Code = 400 ↔ (a.Validator plugin).1 = false) ∧
        ((a.Validator plugin).1 = true → status.Code = 0)) := by
  simp only [RequestHandler.handleValidation, hres, hdec, if_true]
  rcases hv : a.Validator plugin with ⟨ok, message, err⟩
  cases err with
  | some err => simp
  | none => cases ok <;> simp

/-- Witness of C23: `scenario1` is allowed, `scenario2` is denied with code 400, and a
failing validator gives no response. -/
theorem handleValidation_decision_witness :
    (∃ response status, exampleHandler.handleValidation exampleCodecs
        (kongFileRequest "scenario1") = (some response, none) ∧
        response.UID = "uid-1" ∧ response.Allowed = true ∧ response.Result = some status ∧
        status.Message = "" ∧ status.Code = 0) ∧
      exampleHandler.handleValidation exampleCodecs (kongFileRequest "scenario2") =
        (some { UID := "uid-1", Allowed := false,
                Result := some { Message := "spec path must not be empty.", Code := 400 } },
          none) ∧
      failingHandler.handleValidation exampleCodecs (kongFileRequest "scenario1") =
        (none, some (.backend "lookup failed")) :=
  have h1 := (handleValidation_decision exampleHandler exampleCodecs
    (kongFileRequest "scenario1") scenario1 rfl rfl).2 (by decide)
  ⟨by
      obtain ⟨response, status, h, huid, hallowed, hresult, hmsg, _, hcode⟩ := h1
      exact ⟨response, status, h, huid, hallowed.trans (by decide), hresult,
        hmsg.trans (by decide), hcode (by decide)⟩,
    by decide,
    (handleValidation_decision failingHandler exampleCodecs (kongFileRequest "scenario1")
      scenario1 rfl rfl).1 _ rfl⟩

/-- C24: for a request whose resource is not the kongfiles resource, `handleValidation`
returns the unknown-resource error and no response, whatever the Validator and the decoder
are (neither is invoked), and `ServeHTTP` on a review that carries such a request answers
with `http.Error` and status 500, writing no decision. -/
theorem handleValidation_unknown_resource (a : RequestHandler) (E : Codecs)
    (request : AdmissionRequest) (hres : request.Resource ≠ kongFileGVResource E) :
    a.handleValidation E request =
      (none, some (.unknownResource request.Resource.Group request.Resource.Version
        request.Resource.Resource)) ∧
    (∀ (b : RequestHandler) (decode : String → Except Error KongFile),
      b.handleValidation { E with Decode := decode } request = a.handleValidation E request) ∧
    (∀ (write : String → Option Error) (data : String) (review : AdmissionReview),
      E.Unmarshal data = .ok review → review.Request = some request →
      a.ServeHTTP E write { Body := some (.ok data) } =
        .returned [.Error (.unknownResource request.Resource.Group request.Resource.Version
          request.Resource.Resource) 500]) := by
  have h1 : a.handleValidation E request =
      (none, some (.unknownResource request.Resource.Group request.Resource.Version
        request.Resource.Resource)) := by
    simp [RequestHandler.handleValidation, hres]
  refine ⟨h1, fun b decode => ?_, fun write data review hu hr => ?_⟩
  · rw [h1]
    have hres2 : request.Resource ≠ kongFileGVResource { E with Decode := decode } := hres
    simp [RequestHandler.handleValidation, hres2]
  · simp [RequestHandler.ServeHTTP, hu, hr, h1, StatusInternalServerError]

/-- Witness of C24: a request about a Pod. -/
theorem handleValidation_unknown_resource_witness :
    exampleHandler.handleValidation exampleCodecs podRequest =
        (none, some (.unknownResource "" "v1" "pods")) ∧
      exampleHandler.ServeHTTP exampleCodecs (fun _ => none) { Body := some (.ok "review2") } =
        .returned [.Error (.unknownResource "" "v1" "pods") 500] :=
  ⟨(handleValidation_unknown_resource exampleHandler exampleCodecs podRequest (by decide)).1,
    (handleValidation_unknown_resource exampleHandler exampleCodecs podRequest (by decide)).2.2
      (fun _ => none) "review2" _ rfl rfl⟩

/-- The four branches of `toTLSConfig`. -/
theorem ServerConfig.toTLSConfig_cases (sc : ServerConfig) (P : Host) :
    (sc.inMemoryPair → sc.toTLSConfig P = loadKeyPair P sc.Cert sc.Key []) ∧
    (sc.filePair → sc.toTLSConfig P = keyPairFromFiles P sc.CertPath sc.KeyPath) ∧
    (sc.allEmpty → sc.toTLSConfig P =
      keyPairFromFiles P DefaultAdmissionWebhookCertPath DefaultAdmissionWebhookKeyPath) ∧
    (¬ (sc.inMemoryPair ∨ sc.filePair ∨ sc.allEmpty) →
      sc.toTLSConfig P = ((none, some errTLSCombination), [])) := by
  unfold ServerConfig.inMemoryPair ServerConfig.filePair ServerConfig.allEmpty
  refine ⟨?_, ?_, ?_, ?_⟩
  · rintro ⟨a, b, c, d⟩
    simp [ServerConfig.toTLSConfig, a, b, c, d]
  · rintro ⟨a, b, c, d⟩
    simp [ServerConfig.toTLSConfig, keyPairFromFiles, a, b, c, d]
  · rintro ⟨a, b, c, d⟩
    simp [ServerConfig.toTLSConfig, keyPairFromFiles, a, b, c, d]
  · intro h
    have h1 : ¬ (sc.CertPath = "" ∧ sc.KeyPath = "" ∧ sc.Cert ≠ "" ∧ sc.Key ≠ "") :=
      fun ⟨a, b, c, d⟩ => h (Or.inl ⟨c, d, a, b⟩)
    have h2 : ¬ (sc.CertPath ≠ "" ∧ sc.KeyPath ≠ "" ∧ sc.Cert = "" ∧ sc.Key = "") :=
      fun x => h (Or.inr (Or.inl x))
    have h3 : ¬ (sc.CertPath = "" ∧ sc.KeyPath = "" ∧ sc.Cert = "" ∧ sc.Key = "") :=
      fun x => h (Or.inr (Or.inr x))
    simp only [ServerConfig.toTLSConfig, if_neg h1, if_neg h2, if_neg h3]

/-- Parsing the key pair is recorded after what was asked before, and its error is not the
configuration error. -/
theorem loadKeyPair_calls (P : Host) (cert key : String) (calls : List TLSCall) :
    (loadKeyPair P cert key calls).2 = calls ++ [.X509KeyPair cert key] ∧
    (loadKeyPair P cert key calls).1.2 ≠ some errTLSCombination := by
  unfold loadKeyPair
  cases P.X509KeyPair cert key <;> simp [errTLSCombination]

/-- Loading from files starts by reading the certificate file, and its error is not the
configuration error. -/
theorem keyPairFromFiles_calls (P : Host) (certPath keyPath : String) :
    (keyPairFromFiles P certPath keyPath).2.head? = some (.ReadFile certPath) ∧
    (keyPairFromFiles P certPath keyPath).1.2 ≠ some errTLSCombination := by
  unfold keyPairFromFiles readKeyPairFiles
  cases P.ReadFile certPath with
  | error e => simp [errTLSCombination]
  | ok cert =>
    cases P.ReadFile keyPath with
    | error e => simp [errTLSCombination]
    | ok key =>
      have h := loadKeyPair_calls P cert key [.ReadFile certPath, .ReadFile keyPath]
      simp only [h.1]
      exact ⟨rfl, h.2⟩

/-- C25: `toTLSConfig` goes on to load a key pair (it asks something of the platform and
does not return the configuration error) exactly when the four strings have one of the
three forms in-memory pair, file pair, all empty; the forms exclude one another; in the
in-memory form the values are parsed, in the file form the configured paths are read, in
the empty form the default paths; every other combination returns the configuration error
and nothing is read. -/
theorem toTLSConfig_forms (sc : ServerConfig) (P : Host) :
    ((sc.toTLSConfig P).2 ≠ [] ↔ sc.inMemoryPair ∨ sc.filePair ∨ sc.allEmpty) ∧
    ((sc.toTLSConfig P).1.2 ≠ some errTLSCombination ↔
      sc.inMemoryPair ∨ sc.filePair ∨ sc.allEmpty) ∧
    (¬ (sc.inMemoryPair ∧ sc.filePair) ∧ ¬ (sc.inMemoryPair ∧ sc.allEmpty) ∧
      ¬ (sc.filePair ∧ sc.allEmpty)) ∧
    (sc.inMemoryPair → (sc.toTLSConfig P).2 = [.X509KeyPair sc.Cert sc.Key]) ∧
    (sc.filePair → (sc.toTLSConfig P).2.head? = some (.ReadFile sc.CertPath)) ∧
    (sc.allEmpty →
      (sc.toTLSConfig P).2.head? = some (.ReadFile DefaultAdmissionWebhookCertPath)) ∧
    (¬ (sc.inMemoryPair ∨ sc.filePair ∨ sc.allEmpty) →
      sc.toTLSConfig P = ((none, some errTLSCombination), [])) := by
  obtain ⟨hmem, hfile, hempty, hother⟩ := ServerConfig.toTLSConfig_cases sc P
  have hasked : sc.inMemoryPair ∨ sc.filePair ∨ sc.allEmpty →
      (sc.toTLSConfig P).2 ≠ [] ∧ (sc.toTLSConfig P).1.2 ≠ some errTLSCombination := by
    rintro (h | h | h)
    · rw [hmem h]
      exact ⟨by simp [(loadKeyPair_calls P sc.Cert sc.Key []).1],
        (loadKeyPair_calls P sc.Cert sc.Key []).2⟩
    · rw [hfile h]
      have hc := keyPairFromFiles_calls P sc.CertPath sc.KeyPath
      refine ⟨fun hnil => ?_, hc.2⟩
      rw [hnil] at hc
      simp at hc
    · rw [hempty h]
      have hc := keyPairFromFiles_calls P DefaultAdmissionWebhookCertPath
        DefaultAdmissionWebhookKeyPath
      refine ⟨fun hnil => ?_, hc.2⟩
      rw [hnil] at hc
      simp at hc
  refine ⟨⟨fun h => ?_, fun h => (hasked h).1⟩, ⟨fun h => ?_, fun h => (hasked h).2⟩,
    ⟨?_, ?_, ?_⟩, fun h => ?_, fun h => ?_, fun h => ?_, hother⟩
  · by_contra hnot
    rw [hother hnot] at h
    exact h rfl
  · by_contra hnot
    rw [hother hnot] at h
    exact h rfl
  · rintro ⟨⟨a, _, _, _⟩, ⟨_, _, c, _⟩⟩
    exact a c
  · rintro ⟨⟨a, _, _, _⟩, ⟨_, _, c, _⟩⟩
    exact a c
  · rintro ⟨⟨a, _, _, _⟩, ⟨c, _, _, _⟩⟩
    exact a c
  · rw [hmem h]
    simp [(loadKeyPair_calls P sc.Cert sc.Key []).1]
  · rw [hfile h]
    exact (keyPairFromFiles_calls P sc.CertPath sc.KeyPath).1
  · rw [hempty h]
    exact (keyPairFromFiles_calls P _ _).1

/-- Witness of C25: an in-memory pair is parsed; a certificate value next to a key path is
refused without any read. -/
theorem toTLSConfig_forms_witness :
    (ServerConfig.toTLSConfig { Cert := "CERT", Key := "KEY" } bareHost).2 =
        [.X509KeyPair "CERT" "KEY"] ∧
      ServerConfig.toTLSConfig { Cert := "CERT", KeyPath := "/tls.key" } bareHost =
        ((none, some errTLSCombination), []) :=
  ⟨(toTLSConfig_forms { Cert := "CERT", Key := "KEY" } bareHost).2.2.2.1
      (by simp [ServerConfig.inMemoryPair]),
    (toTLSConfig_forms { Cert := "CERT", KeyPath := "/tls.key" } bareHost).2.2.2.2.2.2
      (by simp [ServerConfig.inMemoryPair, ServerConfig.filePair, ServerConfig.allEmpty])⟩

/-! ## Class matching and event predicates -/

/-- C26 fails on the code: with the empty string as controller class, `validController`
holds under `ExactClassMatch` for an empty class annotation, and so does
`ControllerClassValidator` for a resource without annotation, although the comment on that
branch says that an empty-class resource will never be valid. -/
theorem validController_empty_class_valid :
    validController "" "" ExactClassMatch = .ok true ∧
      ControllerClassValidator "" [] ExactClassMatch = .ok true ∧
      ControllerClassValidator "" [(ControllerClassKey, "")] ExactClassMatch = .ok true := by
  refine ⟨rfl, rfl, rfl⟩

/-- What `validController` returns for the three handling values: true under
`IgnoreClassMatch`, under `ExactOrEmptyClassMatch` true exactly when the value is empty or
equals the class, under `ExactClassMatch` true exactly when the value equals the class, so
false for an empty value and a non-empty class; it returns a verdict in all three. -/
theorem validController_verdicts (v c : String) :
    validController v c IgnoreClassMatch = .ok true ∧
    (validController v c ExactOrEmptyClassMatch = .ok true ↔ v = "" ∨ v = c) ∧
    (validController v c ExactClassMatch = .ok true ↔ v = c) ∧
    (c ≠ "" → validController "" c ExactClassMatch = .ok false) ∧
    (∀ handling, handling = IgnoreClassMatch ∨ handling = ExactOrEmptyClassMatch ∨
      handling = ExactClassMatch → ∃ verdict, validController v c handling = .ok verdict) := by
  have h10 : ExactOrEmptyClassMatch ≠ IgnoreClassMatch := by decide
  have h20 : ExactClassMatch ≠ IgnoreClassMatch := by decide
  have h21 : ExactClassMatch ≠ ExactOrEmptyClassMatch := by decide
  refine ⟨by simp [validController], ?_, ?_, ?_, ?_⟩
  · simp [validController, h10]
  · simp [validController, h20, h21]
  · intro hc
    have hne : ¬ ("" = c) := fun h => hc h.symm
    simp [validController, h20, h21, hne]
  · rintro handling (h | h | h)
    · exact ⟨true, by simp [validController, h]⟩
    · exact ⟨decide (v = "") || decide (v = c), by simp [validController, h, h10]⟩
    · exact ⟨decide (v = c), by simp [validController, h, h20, h21]⟩

/-- C30: the update predicate built by `GeneratePredicateFuncsForControllerClassFilter` is
true on every update event, for every class name and both switches; with specCheckEnabled
= false and annotationCheckEnabled = true the predicate on create, delete and generic
events is true exactly when the object carries the controller-class annotation with the
class name as its value. -/
theorem predicate_funcs_spec (name : String) (specCheckEnabled annotationCheckEnabled : Bool) :
    (∀ e, (GeneratePredicateFuncsForControllerClassFilter name specCheckEnabled
      annotationCheckEnabled).UpdateFunc e = true) ∧
    (∀ obj, ((GeneratePredicateFuncsForControllerClassFilter name false true).CreateFunc obj =
        true ↔ obj.Annotations.lookup ControllerClassKey = some name) ∧
      ((GeneratePredicateFuncsForControllerClassFilter name false true).DeleteFunc obj =
        true ↔ obj.Annotations.lookup ControllerClassKey = some name) ∧
      ((GeneratePredicateFuncsForControllerClassFilter name false true).GenericFunc obj =
        true ↔ obj.Annotations.lookup ControllerClassKey = some name)) := by
  have hann : ∀ obj : KongFile, IsControllerClassAnnotationConfigured obj name = true ↔
      obj.Annotations.lookup ControllerClassKey = some name := by
    intro obj
    unfold IsControllerClassAnnotationConfigured
    cases obj.Annotations.lookup ControllerClassKey <;> simp
  refine ⟨fun e => ?_, fun obj => ?_⟩
  · simp [GeneratePredicateFuncsForControllerClassFilter, IsControllerClassSpecConfigured]
  · simp [GeneratePredicateFuncsForControllerClassFilter, hann]

/-! ## Admitted objects and their paths -/

/-- A string that starts with a character that is not white space does not trim to the
empty string. -/
theorem TrimSpace_ne_empty (s : String) (ch : Char) (hhead : s.data.head? = some ch)
    (hch : isSpace ch = false) : TrimSpace s ≠ "" := by
  cases hd : s.data with
  | nil => simp [hd] at hhead
  | cons x xs =>
    have hx : x = ch := by simpa [hd] using hhead
    subst hx
    intro h
    have hdata := congrArg String.data h
    simp only [TrimSpace, hd] at hdata
    rw [List.dropWhile_cons_of_neg (by simp [hch])] at hdata
    have hnil : ((x :: xs).reverse.dropWhile isSpace) = [] := by
      have := congrArg List.reverse hdata
      simpa using this
    have hall := List.dropWhile_eq_nil_iff.1 hnil x (by simp)
    rw [hch] at hall
    exact absurd hall (by decide)

/-- The path built for one of the three kinds is not blank. -/
theorem Build_path_not_blank (kf : KongFile)
    (hkind : kf.Spec.Kind = CONTENT ∨ kf.Spec.Kind = ASSET ∨ kf.Spec.Kind = SPECIFICATION) :
    isEmptyString (Build kf).Path = false := by
  obtain ⟨hc, ha, hs⟩ := Build_path_head kf
  have hsome : (Build kf).Path = some ((Build kf).Path.getD "") := by
    simp [Build]
  rw [hsome]
  simp only [isEmptyString, decide_eq_false_iff_not]
  rcases hkind with h | h | h
  · exact TrimSpace_ne_empty _ 'c' (hc h) (by decide)
  · exact TrimSpace_ne_empty _ 'b' (ha h) (by decide)
  · exact TrimSpace_ne_empty _ 's' (hs h) (by decide)

/-- C27 as stated fails: `kindlessFile` has a name, a spec.name and a spec.path and no
kind; `ValidateKongFile` allows it, `Build` maps it to the empty path, and
`FileService.Update`, `Get` and `Delete` reject the record with their empty-path error. -/
theorem admitted_blank_path_counterexample :
    (ValidateKongFile specReasons kindlessFile).1 = true ∧
      (Build kindlessFile).Path = some "" ∧
      isEmptyString (Build kindlessFile).Path = true ∧
      (FileService.Update plainClient (Build kindlessFile) emptyBackend).1 =
        (none, some (.text "Path cannot be nil for Update operation")) ∧
      (FileService.Get plainClient (Build kindlessFile) emptyBackend).1 =
        (none, some (.text "Path cannot be nil for Get operation")) ∧
      (FileService.Delete plainClient (Build kindlessFile) emptyBackend).1 =
        (some (Build kindlessFile), some (.text "Path cannot be nil for Delete operation")) := by
  decide

/-- C27 (amended): for a KongFile that `ValidateKongFile` allows and whose kind is CONTENT,
ASSET or SPECIFICATION, `Build` yields a path that is not blank, so the guard of
`FileService.Update`, `Get` and `Delete` lets the mapped record through: whenever the
client can build the request, the request is sent. -/
theorem admitted_path_not_blank {β : Type} (R : Reasons) (kf : KongFile) (c : Client β)
    (b : Backend β) (_hallowed : (ValidateKongFile R kf).1 = true)
    (hkind : kf.Spec.Kind = CONTENT ∨ kf.Spec.Kind = ASSET ∨ kf.Spec.Kind = SPECIFICATION) :
    isEmptyString (Build kf).Path = false ∧
    (c.requestError "PUT" ("/files/" ++ deref (Build kf).Path) (some (Build kf)) = none →
      (FileService.Update c (Build kf) b).2.requests = b.requests ++
        [{ Method := "PUT", Endpoint := "/files/" ++ deref (Build kf).Path,
           Body := some (Build kf) }]) ∧
    (c.requestError "GET" ("/files/" ++ deref (Build kf).Path) none = none →
      (FileService.Get c (Build kf) b).2.requests = b.requests ++
        [{ Method := "GET", Endpoint := "/files/" ++ deref (Build kf).Path, Body := none }]) ∧
    (c.requestError "DELETE" ("/files/" ++ deref (Build kf).Path) none = none →
      (FileService.Delete c (Build kf) b).2.requests = b.requests ++
        [{ Method := "DELETE", Endpoint := "/files/" ++ deref (Build kf).Path,
           Body := none }]) := by
  have hguard := Build_path_not_blank kf hkind
  refine ⟨hguard, fun h => ?_, fun h => ?_, fun h => ?_⟩
  · simp only [FileService.Update, hguard, Client.NewRequest, h, Bool.false_eq_true, if_false]
    split <;> simp [Client.send]
  · simp only [FileService.Get, hguard, Client.NewRequest, h, Bool.false_eq_true, if_false]
    split <;> simp [Client.send]
  · simp only [FileService.Delete, hguard, Client.NewRequest, h, Bool.false_eq_true, if_false]
    split <;> simp [Client.send]

/-- Witness of C27 (amended): `scenario1` is allowed, of kind CONTENT, and its record is
sent to the backend. -/
theorem admitted_path_not_blank_witness :
    isEmptyString (Build scenario1).Path = false ∧
      (FileService.Update plainClient (Build scenario1) emptyBackend).2.requests =
        [{ Method := "PUT", Endpoint := "/files/content/p/a", Body := some (Build scenario1) }] :=
  have h := admitted_path_not_blank specReasons scenario1 plainClient emptyBackend (by decide)
    (Or.inl rfl)
  ⟨h.1, (h.2.1 rfl).trans (by decide)⟩

/-- Two lists that agree once cut at the first occurrence of `c` agree piece by piece. -/
theorem split_first {α : Type} (c : α) (a b x y : List α) (ha : c ∉ a) (hb : c ∉ b)
    (h : a ++ c :: x = b ++ c :: y) : a = b ∧ x = y := by
  induction a generalizing b with
  | nil =>
    cases b with
    | nil => simpa using h
    | cons d b =>
      simp only [List.nil_append, List.cons_append, List.cons.injEq] at h
      exact absurd h.1 (fun hcd => hb (by simp [hcd]))
  | cons e a ih =>
    cases b with
    | nil =>
      simp only [List.nil_append, List.cons_append, List.cons.injEq] at h
      exact absurd h.1.symm (fun hce => ha (by simp [hce]))
    | cons d b =>
      simp only [List.cons_append, List.cons.injEq] at h
      have := ih b (fun hm => ha (List.mem_cons_of_mem _ hm))
        (fun hm => hb (List.mem_cons_of_mem _ hm)) h.2
      exact ⟨by rw [h.1, this.1], this.2⟩

/-- Two lists that agree once cut at the last occurrence of `c` agree piece by piece. -/
theorem split_last {α : Type} (c : α) (l r m t : List α) (hr : c ∉ r) (ht : c ∉ t)
    (h : l ++ c :: r = m ++ c :: t) : l = m ∧ r = t := by
  have hrev : r.reverse ++ c :: l.reverse = t.reverse ++ c :: m.reverse := by
    have := congrArg List.reverse h
    simpa using this
  have hsplit := split_first c r.reverse t.reverse l.reverse m.reverse
    (by simpa using hr) (by simpa using ht) hrev
  exact ⟨List.reverse_injective hsplit.2, List.reverse_injective hsplit.1⟩

/-- Path and name can be read back from `<start><path>/<name>` when the name has no `/`. -/
theorem path_name_injective (start p n q m : String) (hn : '/' ∉ n.data) (hm : '/' ∉ m.data)
    (h : start ++ p ++ "/" ++ n = start ++ q ++ "/" ++ m) : p = q ∧ n = m := by
  have hdata := congrArg String.data h
  simp only [String.data_append, List.append_assoc, List.append_cancel_left_eq] at hdata
  have hsplit := split_last '/' p.data n.data q.data m.data hn hm (by simpa using hdata)
  exact ⟨String.ext hsplit.1, String.ext hsplit.2⟩

/-- C28 as stated fails: `assetFile` and `assetFileCopy` are distinct desired-state files
(keys `/x` and `/y`) of the same kind whose names contain no `/`; `Build` maps both to
`base/assets/img/logo.png`, and pushing the second overwrites the backend record of the
first. -/
theorem Build_path_shared_record_counterexample :
    keyFunc assetFile = "/x" ∧ keyFunc assetFileCopy = "/y" ∧
      assetFile.Spec.Kind = assetFileCopy.Spec.Kind ∧
      '/' ∉ assetFile.Spec.Name.data ∧ '/' ∉ assetFileCopy.Spec.Name.data ∧
      (Build assetFile).Path = some "base/assets/img/logo.png" ∧
      (Build assetFileCopy).Path = some "base/assets/img/logo.png" ∧
      (cachedResolver.UpdateObject (.kongFile assetFile)).2.backend.state
        "/files/base/assets/img/logo.png" = some (Build assetFile) ∧
      ((cachedResolver.UpdateObject (.kongFile assetFile)).2.UpdateObject
        (.kongFile assetFileCopy)).2.backend.state
        "/files/base/assets/img/logo.png" = some (Build assetFileCopy) ∧
      Build assetFileCopy ≠ Build assetFile := by
  decide

/-- C28 (amended): for two KongFiles of the same kind (CONTENT, ASSET or SPECIFICATION)
whose spec.name values contain no `/`, `Build` yields equal paths exactly when the two
objects have equal spec.path and equal spec.name: the path mapping is injective in
spec.path and spec.name, and it does not depend on the identity of the object. -/
theorem Build_path_injective (a b : KongFile) (hsame : a.Spec.Kind = b.Spec.Kind)
    (hkind : a.Spec.Kind = CONTENT ∨ a.Spec.Kind = ASSET ∨ a.Spec.Kind = SPECIFICATION)
    (ha : '/' ∉ a.Spec.Name.data) (hb : '/' ∉ b.Spec.Name.data) :
    (Build a).Path = (Build b).Path ↔
      a.Spec.Path = b.Spec.Path ∧ a.Spec.Name = b.Spec.Name := by
  constructor
  · intro hpath
    rcases hkind with h | h | h
    · rw [Build_content a h, Build_content b (hsame ▸ h)] at hpath
      exact path_name_injective "content/" _ _ _ _ ha hb (Option.some.inj hpath)
    · rw [Build_asset a h, Build_asset b (hsame ▸ h)] at hpath
      exact path_name_injective "base/assets/" _ _ _ _ ha hb (Option.some.inj hpath)
    · rw [Build_specification a h, Build_specification b (hsame ▸ h)] at hpath
      exact path_name_injective "specs/" _ _ _ _ ha hb (Option.some.inj hpath)
  · rintro ⟨hp, hn⟩
    rcases hkind with h | h | h
    · rw [Build_content a h, Build_content b (hsame ▸ h), hp, hn]
    · rw [Build_asset a h, Build_asset b (hsame ▸ h), hp, hn]
    · rw [Build_specification a h, Build_specification b (hsame ▸ h), hp, hn]

/-- Witness of C28 (amended): `scenario1` and `classedFile` are of kind CONTENT and get the
same path, so they agree on spec.path and spec.name; `assetFile` and `assetFileCopy` agree
on spec.path and spec.name, so they get the same path. -/
theorem Build_path_injective_witness :
    (scenario1.Spec.Path = classedFile.Spec.Path ∧
        scenario1.Spec.Name = classedFile.Spec.Name) ∧
      (Build assetFile).Path = (Build assetFileCopy).Path :=
  ⟨(Build_path_injective scenario1 classedFile rfl (Or.inl rfl) (by decide) (by decide)).1
      (by decide),
    (Build_path_injective assetFile assetFileCopy rfl (Or.inr (Or.inl rfl)) (by decide)
      (by decide)).2 ⟨rfl, rfl⟩⟩

/-- A review without request makes `ServeHTTP` dereference nil, whatever the handler, the
writer and the rest of the codecs are. -/
theorem RequestHandler.ServeHTTP_nil_request (a : RequestHandler) (E : Codecs)
    (write : String → Option Error) (data : String) (review : AdmissionReview)
    (hparse : E.Unmarshal data = .ok review) (hreq : review.Request = none) :
    a.ServeHTTP E write { Body := some (.ok data) } = .panicked "nil pointer dereference" := by
  simp [RequestHandler.ServeHTTP, hparse, hreq]

/-- C29 fails on the code: the body `{}` is not nil and parses as an admission review
without request; `ServeHTTP` dereferences the absent request and panics, so it makes no
call on the response writer. A body that does not parse gets a 400, and a review about
`scenario1` gets its decision written. -/
theorem ServeHTTP_panics_without_request :
    exampleCodecs.Unmarshal "\x7b\x7d" = .ok { Request := none, Response := none } ∧
      exampleHandler.ServeHTTP exampleCodecs (fun _ => none) { Body := some (.ok "\x7b\x7d") } =
        .panicked "nil pointer dereference" ∧
      exampleHandler.ServeHTTP exampleCodecs (fun _ => none) { Body := some (.ok "") } =
        .returned [.Error (.text "unexpected end of JSON input") 400] ∧
      exampleHandler.ServeHTTP exampleCodecs (fun _ => none) { Body := some (.ok "review1") } =
        .returned [.Write "review"] := by
  refine ⟨rfl, by decide, by decide, by decide⟩

end KongPortal
